import Mathlib

/-!
Formal model of the square2-core batched 2D renderer.

The definitions below are a shallow embedding of the repository's graphics
core: the math value types (`src/math/mat4.ts`, `src/math/vec3.ts`,
`src/math/rectangle.ts`, `src/graphics/color.ts`), the shape batch renderer
(`src/graphics/renderers/shapeRenderer.ts`), the image batch renderer
(`src/graphics/renderers/imageRenderer.ts`), their common base
(`src/graphics/renderers/baseRenderer.ts`) and the `Graphics` facade
(`src/graphics/graphics.ts`).

Modelling conventions:
- JS `number` is modelled by `ℚ`.  The transcendental library functions
  (`Math.sqrt`, `Math.cos`, `Math.sin`, `Math.PI`) are abstracted into a
  `JsMath` parameter record; no claim below depends on their values.
- `Float32Array` buffers are modelled as total functions `ℕ → ℚ` with
  pointwise update, mirroring each indexed store of the source.
- GPU calls (buffer upload, texture bind, draw call) have no observable
  effect on the modelled state; a flush is recorded as an event
  (`Ev.flushShape n` / `Ev.flushImage n`, where `n` is the primitive count
  submitted in that draw call) in an event journal so that flush counts and
  flush ordering can be stated.
- Images and render targets are distinguished by JS reference equality in
  the source (`!==`); they are modelled as records carrying an `id`, with
  equality of ids standing for reference equality.
- Methods that `throw` are modelled in `Except String`.
- The image renderer state carries a ghost journal `pendingTex` holding,
  for each unflushed quad, the texture source under which it was appended.
  It is written only where the source increments `index` and cleared where
  the source resets it; it adds observation, not behaviour.
- The snapshot in `src/` mixes two revisions of the renderer API: the
  facade calls `shapeRenderer.commit()` / `shapeRenderer.drawFilledTriangle(p1,p2,p3)`
  while `shapeRenderer.ts` names the flush `drawBatch` and takes
  color/transform as trailing parameters.  The facade's shape calls are
  therefore bridged here: `commit` on the shape renderer is its flush
  (`drawBatch`), and the facade passes its freshly snapshotted
  color/transform as the trailing parameters.
-/

namespace Square2

/-- Abstracted JS `Math` functions used by the shape renderer.  No claim
depends on their values; the source calls `Math.sqrt`, `Math.cos`,
`Math.sin` and reads `Math.PI`. -/
structure JsMath where
  sqrt : ℚ → ℚ
  cos : ℚ → ℚ
  sin : ℚ → ℚ
  pi : ℚ

/-- A trivial instantiation of the abstracted math functions, used to
evaluate closed runs whose claims do not depend on transcendental values. -/
def trivialMath : JsMath := ⟨fun _ => 0, fun _ => 0, fun _ => 0, 0⟩

/-- The 16-entry matrix value of `Mat4` (`src/math/mat4.ts`, `Mat4Value`). -/
abbrev Mat4Value := Fin 16 → ℚ

/-- The identity matrix, the default contents of `new Mat4()`. -/
def identityMat : Mat4Value := fun i =>
  if i = 0 ∨ i = 5 ∨ i = 10 ∨ i = 15 then 1 else 0

/-- `Vec3.transformMat4` (`src/math/vec3.ts` lines 110-123): homogeneous
transform of `(vX, vY, vZ)` by `mat`, substituting `w = 1` when the
computed `w` is zero. -/
def transformMat4 (mat : Mat4Value) (vX vY vZ : ℚ) : ℚ × ℚ × ℚ :=
  let w0 := mat 3 * vX + mat 7 * vY + mat 11 * vZ + mat 15
  let w := if w0 = 0 then 1 else w0
  ((mat 0 * vX + mat 4 * vY + mat 8 * vZ + mat 12) / w,
   (mat 1 * vX + mat 5 * vY + mat 9 * vZ + mat 13) / w,
   (mat 2 * vX + mat 6 * vY + mat 10 * vZ + mat 14) / w)

/-- RGBA color with components in `[0,1]` (`src/graphics/color.ts`). -/
structure ColorQ where
  red : ℚ
  green : ℚ
  blue : ℚ
  alpha : ℚ
deriving DecidableEq

/-- The facade's and renderers' initial color `new Color(1, 1, 1, 1)`. -/
def whiteColor : ColorQ := ⟨1, 1, 1, 1⟩

/-- A rectangle (`src/math/rectangle.ts`): position and size. -/
structure Rect where
  x : ℚ
  y : ℚ
  width : ℚ
  height : ℚ
deriving DecidableEq

/-- A loaded image, an external texture source (`src/graphics/image.ts` is
not part of the snapshot; per the spec it exposes `width`, `height` and an
opaque texture handle, compared by reference identity).  `id` stands for
the object identity used by `!==` in the batch-compatibility checks. -/
structure Image where
  id : ℕ
  width : ℚ
  height : ℚ
deriving DecidableEq

/-- A render target (`src/graphics/renderTarget.ts`): identity plus size. -/
structure Target where
  id : ℕ
  width : ℚ
  height : ℚ
deriving DecidableEq

/-- Line alignment options (`src/graphics/types.ts`). -/
inductive LineAlign
  | inside
  | center
  | outside
deriving DecidableEq

/-- Flip options for image drawing, as consumed by `getFlippedUV`. -/
inductive Flip
  | none
  | horizontal
  | vertical
  | both
deriving DecidableEq

/-- Bitmap font character data (`src/assets/textLoader.ts`, `BmFontChar`). -/
structure BmFontChar where
  id : ℚ
  x : ℚ
  y : ℚ
  width : ℚ
  height : ℚ
  xOffset : ℚ
  yOffset : ℚ
  xAdvance : ℚ
deriving DecidableEq

/-- A bitmap font as the renderer consumes it (`BitmapFont` in
`src/assets/textLoader.ts`): the atlas image, `getCharData` and
`getKerning`. -/
structure BitmapFontQ where
  image : Image
  charData : Char → Option BmFontChar
  kerning : Char → Char → ℚ

/-- Flush events: one event per GPU draw call, carrying the number of
primitives submitted (`index` at flush time). -/
inductive Ev
  | flushShape (n : ℕ)
  | flushImage (n : ℕ)
deriving DecidableEq

/-- A flat vertex buffer, modelling a `Float32Array`. -/
abbrev Buf := ℕ → ℚ

/-- Pointwise store into a buffer, modelling `array[i] = v`. -/
def writeBuf (b : Buf) (i : ℕ) (v : ℚ) : Buf :=
  fun j => if j = i then v else b j

/-- `BUFFER_SIZE` from `src/graphics/renderers/baseRenderer.ts` line 17:
the number of primitives a batch can hold before an implicit flush. -/
def BUFFER_SIZE : ℕ := 4000

/-- Sequence two event-producing state transitions, concatenating their
event journals.  Used to compose consecutive renderer calls. -/
def seqEv {σ : Type} (r : σ × List Ev) (f : σ → σ × List Ev) : σ × List Ev :=
  let r2 := f r.1
  (r2.1, r.2 ++ r2.2)

/-! ### Shape renderer (`src/graphics/renderers/shapeRenderer.ts`) -/

/-- Shape renderer state: the batch cursor `index`, the vertex buffer, and
the per-call `color`/`transform` fields inherited from `BaseRenderer`.
`errors` is a ghost counter of reported errors (`console.log` calls). -/
structure ShapeState where
  index : ℕ
  buf : Buf
  color : ColorQ
  transform : Mat4Value
  errors : ℕ

/-- The shape renderer's initial state after construction. -/
def shapeInit : ShapeState :=
  { index := 0, buf := fun _ => 0, color := whiteColor
    transform := identityMat, errors := 0 }

namespace ShapeRenderer

/-- `ShapeRenderer.updateBuffer` (lines 375-384): write one vertex
(position and color, `z` stored as the literal 0) at
`index * 21 + pointOffset * 7`. -/
def updateBuffer (s : ShapeState) (point : ℚ × ℚ × ℚ) (c : ColorQ)
    (pointOffset : ℕ) : ShapeState :=
  let i := s.index * 21 + pointOffset * 7
  let b := writeBuf s.buf i point.1
  let b := writeBuf b (i + 1) point.2.1
  let b := writeBuf b (i + 2) 0
  let b := writeBuf b (i + 3) c.red
  let b := writeBuf b (i + 4) c.green
  let b := writeBuf b (i + 5) c.blue
  let b := writeBuf b (i + 6) c.alpha
  { s with buf := b }

/-- `ShapeRenderer.drawBatch` (lines 84-122): no-op on an empty batch,
otherwise issue one draw call for `index` triangles and reset the cursor. -/
def drawBatch (s : ShapeState) : ShapeState × List Ev :=
  if s.index = 0 then (s, [])
  else ({ s with index := 0 }, [Ev.flushShape s.index])

/-- `ShapeRenderer.drawSolidTriangle` (lines 135-159): flush when the batch
is full, then transform and write the three vertices and advance the
cursor. -/
def drawSolidTriangle (x1 y1 x2 y2 x3 y3 : ℚ) (c : ColorQ) (t : Mat4Value)
    (s : ShapeState) : ShapeState × List Ev :=
  let r := if BUFFER_SIZE ≤ s.index then drawBatch s else (s, [])
  let s := r.1
  let s := updateBuffer s (transformMat4 t x1 y1 0) c 0
  let s := updateBuffer s (transformMat4 t x2 y2 0) c 1
  let s := updateBuffer s (transformMat4 t x3 y3 0) c 2
  ({ s with index := s.index + 1 }, r.2)

/-- `ShapeRenderer.drawLine` (lines 215-247): derive the perpendicular
offset from the line direction and emit two triangles forming a quad.  The
source has no zero-length guard; `lineLength` can be zero.  (In JS the
resulting division produces `Infinity`/`NaN` coordinates; here `ℚ` division
by zero yields 0.  No claim depends on the coordinate values of this
degenerate case, only on the appended primitive count.) -/
def drawLine (m : JsMath) (x1 y1 x2 y2 : ℚ) (align : LineAlign)
    (lineWidth : ℚ) (c : ColorQ) (t : Mat4Value) (s : ShapeState) :
    ShapeState × List Ev :=
  let dx := x2 - x1
  let dy := y2 - y1
  let lineLength := m.sqrt (dx * dx + dy * dy)
  let scale := lineWidth / (2 * lineLength)
  let ddx := -scale * dy
  let ddy := scale * dx
  match align with
  | .inside =>
    seqEv (drawSolidTriangle x1 y1 (x1 + ddx * 2) (y1 + ddy * 2) x2 y2 c t s)
      (drawSolidTriangle x2 y2 (x1 + ddx * 2) (y1 + ddy * 2) (x2 + ddx * 2)
        (y2 + ddy * 2) c t)
  | .center =>
    seqEv (drawSolidTriangle (x1 + ddx) (y1 + ddy) (x1 - ddx) (y1 - ddy)
        (x2 + ddx) (y2 + ddy) c t s)
      (drawSolidTriangle (x2 + ddx) (y2 + ddy) (x1 - ddx) (y1 - ddy)
        (x2 - ddx) (y2 - ddy) c t)
  | .outside =>
    seqEv (drawSolidTriangle x1 y1 (x1 - ddx * 2) (y1 - ddy * 2) x2 y2 c t s)
      (drawSolidTriangle x2 y2 (x1 - ddx * 2) (y1 - ddy * 2) (x2 - ddx * 2)
        (y2 - ddy * 2) c t)

/-- `ShapeRenderer.drawSolidRect` (lines 170-173): two triangles from the
four corners. -/
def drawSolidRect (x y width height : ℚ) (c : ColorQ) (t : Mat4Value)
    (s : ShapeState) : ShapeState × List Ev :=
  seqEv (drawSolidTriangle x y (x + width) y x (y + height) c t s)
    (drawSolidTriangle x (y + height) (x + width) y (x + width) (y + height)
      c t)

/-- `ShapeRenderer.drawRect` (lines 185-202): four `inside`-aligned border
lines. -/
def drawRect (m : JsMath) (x y width height lineWidth : ℚ) (c : ColorQ)
    (t : Mat4Value) (s : ShapeState) : ShapeState × List Ev :=
  let r := drawLine m x y (x + width) y .inside lineWidth c t s
  let r := seqEv r (drawLine m (x + width) y (x + width) (y + height)
    .inside lineWidth c t)
  let r := seqEv r (drawLine m (x + width) (y + height) x (y + height)
    .inside lineWidth c t)
  seqEv r (drawLine m x (y + height) x y .inside lineWidth c t)

/-- Loop body of `ShapeRenderer.drawCircle` (lines 273-280): `segments`
iterations of the incremental-rotation recurrence, each emitting one
`outside`-aligned line segment.  The source has no validity check on
radius, segments or line width. -/
def drawCircleLoop (m : JsMath) (x y cosv sinv lineWidth : ℚ) (c : ColorQ)
    (t : Mat4Value) : ℕ → ℚ → ℚ → ShapeState → ShapeState × List Ev
  | 0, _, _, s => (s, [])
  | n + 1, sx, sy, s =>
    let px := sx + x
    let py := sy + y
    let sx2 := cosv * sx - sinv * sy
    let sy2 := cosv * sy + sinv * sx
    seqEv (drawLine m (sx2 + x) (sy2 + y) px py .outside lineWidth c t s)
      (drawCircleLoop m x y cosv sinv lineWidth c t n sx2 sy2)

/-- `ShapeRenderer.drawCircle` (lines 259-281).  The loop count `segments`
is taken as a natural number (the source iterates `for i = 0; i < segments`
over an integer segment count). -/
def drawCircle (m : JsMath) (x y radius : ℚ) (segments : ℕ)
    (lineWidth : ℚ) (c : ColorQ) (t : Mat4Value) (s : ShapeState) :
    ShapeState × List Ev :=
  let theta := 2 * m.pi / (segments : ℚ)
  let cosv := m.cos theta
  let sinv := m.sin theta
  drawCircleLoop m x y cosv sinv lineWidth c t segments radius 0 s

/-- Loop of `ShapeRenderer.drawPolygon` (lines 326-333): connect
consecutive vertices with `inside`-aligned lines, then close back to the
start. -/
def drawPolygonLoop (m : JsMath) (x y lineWidth : ℚ) (c : ColorQ)
    (t : Mat4Value) (start : ℚ × ℚ) :
    (ℚ × ℚ) → List (ℚ × ℚ) → ShapeState → ShapeState × List Ev
  | last, [], s =>
    drawLine m (last.1 + x) (last.2 + y) (start.1 + x) (start.2 + y)
      .inside lineWidth c t s
  | last, cur :: rest, s =>
    seqEv (drawLine m (last.1 + x) (last.2 + y) (cur.1 + x) (cur.2 + y)
        .inside lineWidth c t s)
      (drawPolygonLoop m x y lineWidth c t start cur rest)

/-- `ShapeRenderer.drawPolygon` (lines 317-334): fewer than 3 vertices is
reported (`console.log`, counted in `errors`) and draws nothing. -/
def drawPolygon (m : JsMath) (x y : ℚ) (vertices : List (ℚ × ℚ))
    (lineWidth : ℚ) (c : ColorQ) (t : Mat4Value) (s : ShapeState) :
    ShapeState × List Ev :=
  match vertices with
  | v0 :: v1 :: v2 :: rest =>
    drawPolygonLoop m x y lineWidth c t v0 v0 (v1 :: v2 :: rest) s
  | _ => ({ s with errors := s.errors + 1 }, [])

/-- Loop of `ShapeRenderer.drawSolidPolygon` (lines 353-366): fan
triangulation from the first vertex. -/
def drawSolidPolygonLoop (x y : ℚ) (c : ColorQ) (t : Mat4Value)
    (first : ℚ × ℚ) :
    (ℚ × ℚ) → List (ℚ × ℚ) → ShapeState → ShapeState × List Ev
  | _, [], s => (s, [])
  | last, cur :: rest, s =>
    seqEv (drawSolidTriangle (first.1 + x) (first.2 + y) (last.1 + x)
        (last.2 + y) (cur.1 + x) (cur.2 + y) c t s)
      (drawSolidPolygonLoop x y c t first cur rest)

/-- `ShapeRenderer.drawSolidPolygon` (lines 344-367): fewer than 3 vertices
is reported and draws nothing. -/
def drawSolidPolygon (x y : ℚ) (vertices : List (ℚ × ℚ)) (c : ColorQ)
    (t : Mat4Value) (s : ShapeState) : ShapeState × List Ev :=
  match vertices with
  | v0 :: v1 :: v2 :: rest =>
    drawSolidPolygonLoop x y c t v0 v1 (v2 :: rest) s
  | _ => ({ s with errors := s.errors + 1 }, [])

end ShapeRenderer

/-! ### Image renderer (`src/graphics/renderers/imageRenderer.ts`) -/

/-- The texture source a quad was appended under: a loaded image or a
render target's attachment. -/
inductive TexSrc
  | img (i : Image)
  | tgt (t : Target)
deriving DecidableEq

/-- Image renderer state: batch cursor, vertex buffer, per-call
`color`/`transform` (from `BaseRenderer`), and the single
`currentImage`/`currentTarget` marker scoping the batch.  `pendingTex` is a
ghost journal: the texture source of each unflushed quad, appended where
the source increments `index` and cleared where it resets it. -/
structure ImgState where
  index : ℕ
  buf : Buf
  color : ColorQ
  transform : Mat4Value
  currentImage : Option Image
  currentTarget : Option Target
  pendingTex : List TexSrc

/-- The image renderer's initial state after construction. -/
def imgInit : ImgState :=
  { index := 0, buf := fun _ => 0, color := whiteColor
    transform := identityMat, currentImage := none, currentTarget := none
    pendingTex := [] }

namespace ImageRenderer

/-- `ImageRenderer.getFlippedUV` (lines 411-485): one of four fixed UV
mappings, selected by the flip mode, indexed by quad corner
(`[tl, tr, br, bl]`).  The renderer only ever passes corner offsets 0-3;
the catch-all arm is unreachable in its call sites. -/
def getFlippedUV (frame : Rect) (textureSize : ℚ × ℚ) (flip : Flip)
    (pointOffset : ℕ) : ℚ × ℚ :=
  match flip with
  | .both =>
    match pointOffset with
    | 0 => ((frame.x + frame.width) / textureSize.1,
            (frame.y + frame.height) / textureSize.2)
    | 1 => (frame.x / textureSize.1, (frame.y + frame.height) / textureSize.2)
    | 2 => (frame.x / textureSize.1, frame.y / textureSize.2)
    | 3 => ((frame.x + frame.width) / textureSize.1, frame.y / textureSize.2)
    | _ => (0, 0)
  | .horizontal =>
    match pointOffset with
    | 0 => (frame.x / textureSize.1, (frame.y + frame.height) / textureSize.2)
    | 1 => ((frame.x + frame.width) / textureSize.1,
            (frame.y + frame.height) / textureSize.2)
    | 2 => ((frame.x + frame.width) / textureSize.1, frame.y / textureSize.2)
    | 3 => (frame.x / textureSize.1, frame.y / textureSize.2)
    | _ => (0, 0)
  | .vertical =>
    match pointOffset with
    | 0 => ((frame.x + frame.width) / textureSize.1, frame.y / textureSize.2)
    | 1 => (frame.x / textureSize.1, frame.y / textureSize.2)
    | 2 => (frame.x / textureSize.1, (frame.y + frame.height) / textureSize.2)
    | 3 => ((frame.x + frame.width) / textureSize.1,
            (frame.y + frame.height) / textureSize.2)
    | _ => (0, 0)
  | .none =>
    match pointOffset with
    | 0 => (frame.x / textureSize.1, frame.y / textureSize.2)
    | 1 => ((frame.x + frame.width) / textureSize.1, frame.y / textureSize.2)
    | 2 => ((frame.x + frame.width) / textureSize.1,
            (frame.y + frame.height) / textureSize.2)
    | 3 => (frame.x / textureSize.1, (frame.y + frame.height) / textureSize.2)
    | _ => (0, 0)

/-- `ImageRenderer.updateBuffer` (lines 494-507): write one vertex
(position, color, uv, `z` stored as the literal 0) at
`index * 36 + pointOffset * 9`. -/
def updateBuffer (s : ImgState) (position : ℚ × ℚ × ℚ) (c : ColorQ)
    (uv : ℚ × ℚ) (pointOffset : ℕ) : ImgState :=
  let i := s.index * 36 + pointOffset * 9
  let b := writeBuf s.buf i position.1
  let b := writeBuf b (i + 1) position.2.1
  let b := writeBuf b (i + 2) 0
  let b := writeBuf b (i + 3) c.red
  let b := writeBuf b (i + 4) c.green
  let b := writeBuf b (i + 5) c.blue
  let b := writeBuf b (i + 6) c.alpha
  let b := writeBuf b (i + 7) uv.1
  let b := writeBuf b (i + 8) uv.2
  { s with buf := b }

/-- Cursor increment at the end of each quad append; the ghost journal
records the quad's texture source. -/
def pushQuad (s : ImgState) (src : TexSrc) : ImgState :=
  { s with index := s.index + 1, pendingTex := s.pendingTex ++ [src] }

/-- `ImageRenderer.start` (lines 111-115). -/
def start (s : ImgState) : ImgState :=
  { s with index := 0, currentImage := none, currentTarget := none
           pendingTex := [] }

/-- `ImageRenderer.commit` (lines 120-172): no-op when the batch is empty
or no texture source is bound; otherwise one draw call for `index` quads,
then reset the cursor and the bound-texture markers. -/
def commit (s : ImgState) : ImgState × List Ev :=
  if s.index = 0 ∨ (s.currentImage = none ∧ s.currentTarget = none) then
    (s, [])
  else
    ({ s with index := 0, currentImage := none, currentTarget := none
              pendingTex := [] },
     [Ev.flushImage s.index])

/-- The flush condition of `drawImage`/`drawImagePoints` (lines 185, 246):
buffer full, a render target bound, or a different image bound. -/
def needsFlushForImage (s : ImgState) (image : Image) : Bool :=
  decide (BUFFER_SIZE ≤ s.index) || s.currentTarget.isSome ||
    (match s.currentImage with
     | some ci => decide (ci ≠ image)
     | none => false)

/-- The flush condition of `drawRenderTarget` (line 286): buffer full, an
image bound, or a different render target bound. -/
def needsFlushForTarget (s : ImgState) (target : Target) : Bool :=
  decide (BUFFER_SIZE ≤ s.index) || s.currentImage.isSome ||
    (match s.currentTarget with
     | some ct => decide (ct ≠ target)
     | none => false)

/-- `ImageRenderer.drawImage` (lines 184-225): flush on
incompatibility/fullness, default the frame to the full image and the
texture size to the image size, bind the image, then append the four
transformed corners with flip-selected UVs. -/
def drawImage (image : Image) (px py : ℚ) (flip : Flip)
    (frame : Option Rect) (size : Option (ℚ × ℚ)) (s : ImgState) :
    ImgState × List Ev :=
  let r := if needsFlushForImage s image then commit s else (s, [])
  let s := r.1
  let tempFrame := frame.getD ⟨0, 0, image.width, image.height⟩
  let tempSize := size.getD (image.width, image.height)
  let s := { s with currentImage := some image }
  let s := updateBuffer s (transformMat4 s.transform px py 0) s.color
    (getFlippedUV tempFrame tempSize flip 0) 0
  let s := updateBuffer s
    (transformMat4 s.transform (px + tempFrame.width) py 0) s.color
    (getFlippedUV tempFrame tempSize flip 1) 1
  let s := updateBuffer s
    (transformMat4 s.transform (px + tempFrame.width)
      (py + tempFrame.height) 0) s.color
    (getFlippedUV tempFrame tempSize flip 2) 2
  let s := updateBuffer s
    (transformMat4 s.transform px (py + tempFrame.height) 0) s.color
    (getFlippedUV tempFrame tempSize flip 3) 3
  (pushQuad s (.img image), r.2)

/-- `ImageRenderer.drawImagePoints` (lines 238-278): caller-supplied
corners, UVs computed from the frame against the image size. -/
def drawImagePoints (image : Image) (topLeft topRight bottomRight
    bottomLeft : ℚ × ℚ) (frame : Option Rect) (s : ImgState) :
    ImgState × List Ev :=
  let r := if needsFlushForImage s image then commit s else (s, [])
  let s := r.1
  let tempFrame := frame.getD ⟨0, 0, image.width, image.height⟩
  let s := { s with currentImage := some image }
  let s := updateBuffer s (transformMat4 s.transform topLeft.1 topLeft.2 0)
    s.color (tempFrame.x / image.width, tempFrame.y / image.height) 0
  let s := updateBuffer s (transformMat4 s.transform topRight.1 topRight.2 0)
    s.color ((tempFrame.x + tempFrame.width) / image.width,
      tempFrame.y / image.height) 1
  let s := updateBuffer s
    (transformMat4 s.transform bottomRight.1 bottomRight.2 0) s.color
    ((tempFrame.x + tempFrame.width) / image.width,
      (tempFrame.y + tempFrame.height) / image.height) 2
  let s := updateBuffer s
    (transformMat4 s.transform bottomLeft.1 bottomLeft.2 0) s.color
    (tempFrame.x / image.width,
      (tempFrame.y + tempFrame.height) / image.height) 3
  (pushQuad s (.img image), r.2)

/-- `ImageRenderer.drawRenderTarget` (lines 285-311): flush on
incompatibility/fullness, bind the target, append a full quad with the
fixed vertically flipped UV mapping. -/
def drawRenderTarget (px py : ℚ) (target : Target) (s : ImgState) :
    ImgState × List Ev :=
  let r := if needsFlushForTarget s target then commit s else (s, [])
  let s := r.1
  let s := { s with currentTarget := some target }
  let s := updateBuffer s (transformMat4 s.transform px py 0) s.color
    (0, 1) 0
  let s := updateBuffer s
    (transformMat4 s.transform (px + target.width) py 0) s.color (1, 1) 1
  let s := updateBuffer s
    (transformMat4 s.transform (px + target.width) (py + target.height) 0)
    s.color (1, 0) 2
  let s := updateBuffer s
    (transformMat4 s.transform px (py + target.height) 0) s.color (0, 0) 3
  (pushQuad s (.tgt target), r.2)

/-- One glyph quad of `drawBitmapText` (lines 352-392): four corners of
the glyph rectangle, UVs from the glyph's packed atlas location. -/
def drawGlyph (font : BitmapFontQ) (px py xOffset : ℚ) (cd : BmFontChar)
    (s : ImgState) : ImgState :=
  let s := updateBuffer s
    (transformMat4 s.transform (px + xOffset + cd.xOffset)
      (py + cd.yOffset) 0) s.color
    (cd.x / font.image.width, cd.y / font.image.height) 0
  let s := updateBuffer s
    (transformMat4 s.transform (px + xOffset + cd.xOffset + cd.width)
      (py + cd.yOffset) 0) s.color
    ((cd.x + cd.width) / font.image.width, cd.y / font.image.height) 1
  let s := updateBuffer s
    (transformMat4 s.transform (px + xOffset + cd.xOffset + cd.width)
      (py + cd.yOffset + cd.height) 0) s.color
    ((cd.x + cd.width) / font.image.width,
      (cd.y + cd.height) / font.image.height) 2
  let s := updateBuffer s
    (transformMat4 s.transform (px + xOffset + cd.xOffset)
      (py + cd.yOffset + cd.height) 0) s.color
    (cd.x / font.image.width, (cd.y + cd.height) / font.image.height) 3
  pushQuad s (.img font.image)

/-- Character loop of `drawBitmapText` (lines 334-393).  `prev` is the
previous character of the string (`text[i - 1]`), `none` at the start:
the source computes kerning against the raw previous character, whether or
not that character had a glyph.  A character with no glyph data is skipped
before the capacity check and before kerning is added (`continue`). -/
def drawBitmapTextGo (font : BitmapFontQ) (px py : ℚ) :
    Option Char → ℚ → List Char → ImgState → ImgState × List Ev
  | _, _, [], s => (s, [])
  | prev, xOffset, c :: rest, s =>
    match font.charData c with
    | Option.none => drawBitmapTextGo font px py (some c) xOffset rest s
    | some cd =>
      let r := if BUFFER_SIZE ≤ s.index then commit s else (s, [])
      let kerning := match prev with
        | some p => font.kerning p c
        | Option.none => 0
      let xOffset := xOffset + kerning
      let s := drawGlyph font px py xOffset cd r.1
      seqEv (s, r.2)
        (drawBitmapTextGo font px py (some c) (xOffset + cd.xAdvance) rest)

/-- `ImageRenderer.drawBitmapText` (lines 319-394): empty text is a no-op;
otherwise flush on incompatibility/fullness, bind the font atlas, and emit
one quad per glyph, advancing the cursor by kerning plus advance. -/
def drawBitmapText (px py : ℚ) (font : BitmapFontQ) (text : List Char)
    (s : ImgState) : ImgState × List Ev :=
  match text with
  | [] => (s, [])
  | text =>
    let r := if needsFlushForImage s font.image then commit s else (s, [])
    let s := { r.1 with currentImage := some font.image }
    seqEv (s, r.2) (drawBitmapTextGo font px py none 0 text)

end ImageRenderer

/-! ### Graphics facade (`src/graphics/graphics.ts`) -/

/-- `MAX_TARGET_STACK` (line 14). -/
def MAX_TARGET_STACK : ℕ := 64

/-- `MAX_TRANSFORM_STACK` (line 15). -/
def MAX_TRANSFORM_STACK : ℕ := 128

/-- `Mat4.get` (`src/math/mat4.ts`-equivalent source, pool lines 222-250):
take a matrix from the pool (or allocate) and overwrite its entries with
`data`, or reset it to the identity when no data is given.  In value terms
the result is `data` (or the identity); the pool loses its head when
non-empty. -/
def Mat4.getFromPool (pool : List Mat4Value) (data : Option Mat4Value) :
    Mat4Value × List Mat4Value :=
  match pool with
  | _ :: rest => (data.getD identityMat, rest)
  | [] => (data.getD identityMat, [])

/-- State of the `Graphics` facade: tint color, transform stack (head =
top of the JS array), render-target stack (head = top), the matrix pool,
the two renderer states, and the global journal of flush events in
emission order. -/
structure GState where
  color : ColorQ
  transformStack : List Mat4Value
  targetStack : List Target
  matPool : List Mat4Value
  shape : ShapeState
  image : ImgState
  trace : List Ev

/-- The facade state after the constructor (lines 51-61): identity base
transform frame, empty target stack, fresh renderers. -/
def gInit : GState :=
  { color := whiteColor, transformStack := [identityMat], targetStack := []
    matPool := [], shape := shapeInit, image := imgInit, trace := [] }

namespace Graphics

/-- The `transform` getter (lines 22-24): the top of the transform stack.
(On the unreachable empty stack this model defaults to the identity; the
source would read `undefined`.) -/
def transform (g : GState) : Mat4Value :=
  g.transformStack.headD identityMat

/-- `Graphics.pushTarget` (lines 63-70): throws when the target stack
holds `MAX_TARGET_STACK` entries, otherwise pushes and binds the target's
framebuffer. -/
def pushTarget (target : Target) (g : GState) : Except String GState :=
  if g.targetStack.length = MAX_TARGET_STACK then
    .error "Render target stack size exceeded. (more pushes than pulls?)"
  else
    .ok { g with targetStack := target :: g.targetStack }

/-- `Graphics.popTarget` (lines 72-81): pops unconditionally (a JS
`Array.pop` on an empty array is a no-op) and rebinds the new top's
framebuffer, or the default framebuffer when the stack is empty.  No error
path exists. -/
def popTarget (g : GState) : Except String GState :=
  .ok { g with targetStack := g.targetStack.tail }

/-- `Graphics.clearTargets` (lines 83-88). -/
def clearTargets (g : GState) : GState :=
  { g with targetStack := [] }

/-- `Graphics.pushTransform` (lines 90-100): throws when the transform
stack holds `MAX_TRANSFORM_STACK` entries, otherwise pushes a pooled copy
of the given matrix (or of the current top when none is given). -/
def pushTransform (t : Option Mat4Value) (g : GState) :
    Except String GState :=
  if g.transformStack.length = MAX_TRANSFORM_STACK then
    .error "Transform stack size exceeded. (more pushes than pulls?)"
  else
    let r := Mat4.getFromPool g.matPool (some (t.getD (transform g)))
    .ok { g with transformStack := r.1 :: g.transformStack, matPool := r.2 }

/-- `Graphics.popTransform` (lines 106-112): throws when at most the base
frame remains, otherwise pops the top and returns it to the pool. -/
def popTransform (g : GState) : Except String GState :=
  if g.transformStack.length ≤ 1 then
    .error "Cannot pop the last transform off the stack"
  else
    match g.transformStack with
    | m :: rest =>
      .ok { g with transformStack := rest, matPool := m :: g.matPool }
    | [] => .error "Cannot pop the last transform off the stack"

/-- Run the image renderer's `commit` and journal its events; the first
line of every shape-drawing facade method. -/
def commitImageR (g : GState) : GState :=
  let r := ImageRenderer.commit g.image
  { g with image := r.1, trace := g.trace ++ r.2 }

/-- Run the shape renderer's flush (`shapeRenderer.commit()` in the
facade, `drawBatch` in `shapeRenderer.ts`) and journal its events; the
first line of every image-drawing facade method. -/
def commitShapeR (g : GState) : GState :=
  let r := ShapeRenderer.drawBatch g.shape
  { g with shape := r.1, trace := g.trace ++ r.2 }

/-- The snapshot-and-delegate tail of the shape-drawing facade methods:
copy the facade tint and top transform into the shape renderer's per-call
fields, then run the renderer algorithm with them. -/
def shapePhase (f : ColorQ → Mat4Value → ShapeState → ShapeState × List Ev)
    (g : GState) : GState :=
  let sh := { g.shape with color := g.color, transform := transform g }
  let r := f sh.color sh.transform sh
  { g with shape := r.1, trace := g.trace ++ r.2 }

/-- The snapshot-and-delegate tail of `drawImage`/`drawImagePoints`: copy
the facade tint and top transform into the image renderer's per-call
fields, then run the renderer algorithm. -/
def imagePhase (f : ImgState → ImgState × List Ev) (g : GState) : GState :=
  let im := { g.image with color := g.color, transform := transform g }
  let r := f im
  { g with image := r.1, trace := g.trace ++ r.2 }

/-- The delegate-only tail of `drawRenderTarget`/`drawBitmapText` (lines
316-330): the source sets neither `imageRenderer.color` nor
`imageRenderer.transform` before delegating. -/
def imagePhaseNoSnapshot (f : ImgState → ImgState × List Ev) (g : GState) :
    GState :=
  let r := f g.image
  { g with image := r.1, trace := g.trace ++ r.2 }

/-- `Graphics.commit` (lines 153-156): flush the shape batch, then the
image batch. -/
def commitG (g : GState) : GState :=
  commitImageR (commitShapeR g)

/-- `Graphics.drawFilledTriangle` (lines 173-178). -/
def drawFilledTriangle (p1 p2 p3 : ℚ × ℚ) (g : GState) : GState :=
  shapePhase
    (fun c t => ShapeRenderer.drawSolidTriangle p1.1 p1.2 p2.1 p2.2 p3.1
      p3.2 c t)
    (commitImageR g)

/-- `Graphics.drawLine` (lines 187-192). -/
def drawLine (m : JsMath) (p1 p2 : ℚ × ℚ) (align : LineAlign)
    (lineWidth : ℚ) (g : GState) : GState :=
  shapePhase
    (fun c t => ShapeRenderer.drawLine m p1.1 p1.2 p2.1 p2.2 align
      lineWidth c t)
    (commitImageR g)

/-- `Graphics.drawFilledRect` (lines 198-203). -/
def drawFilledRect (rect : Rect) (g : GState) : GState :=
  shapePhase
    (fun c t => ShapeRenderer.drawSolidRect rect.x rect.y rect.width
      rect.height c t)
    (commitImageR g)

/-- `Graphics.drawRect` (lines 210-215). -/
def drawRect (m : JsMath) (rect : Rect) (lineWidth : ℚ) (g : GState) :
    GState :=
  shapePhase
    (fun c t => ShapeRenderer.drawRect m rect.x rect.y rect.width
      rect.height lineWidth c t)
    (commitImageR g)

/-- `Graphics.drawFilledCircle` (lines 223-228), fuel-indexed: after
flushing the image batch and snapshotting tint/transform, the source calls
`this.drawFilledCircle(center, radius, segments)` — itself — instead of
the shape renderer, so the recursion never reaches a base case.  `none`
models non-termination within the given fuel. -/
def drawFilledCircleFuel (center : ℚ × ℚ) (radius : ℚ) (segments : ℕ) :
    ℕ → GState → Option GState
  | 0, _ => none
  | fuel + 1, g =>
    let g := commitImageR g
    let g := { g with
      shape := { g.shape with color := g.color, transform := transform g } }
    drawFilledCircleFuel center radius segments fuel g

/-- `Graphics.drawCircle` (lines 237-242), fuel-indexed: same self-call
(`this.drawCircle(...)`) instead of a shape renderer delegate. -/
def drawCircleFuel (center : ℚ × ℚ) (radius : ℚ) (segments : ℕ)
    (lineWidth : ℚ) : ℕ → GState → Option GState
  | 0, _ => none
  | fuel + 1, g =>
    let g := commitImageR g
    let g := { g with
      shape := { g.shape with color := g.color, transform := transform g } }
    drawCircleFuel center radius segments lineWidth fuel g

/-- `Graphics.drawFilledPolygon` (lines 249-254), fuel-indexed: same
self-call (`this.drawFilledPolygon(...)`). -/
def drawFilledPolygonFuel (center : ℚ × ℚ) (vertices : List (ℚ × ℚ)) :
    ℕ → GState → Option GState
  | 0, _ => none
  | fuel + 1, g =>
    let g := commitImageR g
    let g := { g with
      shape := { g.shape with color := g.color, transform := transform g } }
    drawFilledPolygonFuel center vertices fuel g

/-- `Graphics.drawPolygon` (lines 262-267), fuel-indexed: same self-call
(`this.drawPolygon(...)`). -/
def drawPolygonFuel (center : ℚ × ℚ) (vertices : List (ℚ × ℚ))
    (lineWidth : ℚ) : ℕ → GState → Option GState
  | 0, _ => none
  | fuel + 1, g =>
    let g := commitImageR g
    let g := { g with
      shape := { g.shape with color := g.color, transform := transform g } }
    drawPolygonFuel center vertices lineWidth fuel g

/-- `Graphics.drawImage` (lines 279-284). -/
def drawImage (image : Image) (position : ℚ × ℚ) (flip : Flip)
    (frame : Option Rect) (size : Option (ℚ × ℚ)) (g : GState) : GState :=
  imagePhase
    (ImageRenderer.drawImage image position.1 position.2 flip frame size)
    (commitShapeR g)

/-- `Graphics.drawImagePoints` (lines 297-309). -/
def drawImagePoints (image : Image) (topLeft topRight bottomRight
    bottomLeft : ℚ × ℚ) (frame : Option Rect) (g : GState) : GState :=
  imagePhase
    (ImageRenderer.drawImagePoints image topLeft topRight bottomRight
      bottomLeft frame)
    (commitShapeR g)

/-- `Graphics.drawRenderTarget` (lines 316-319): flushes the shape batch
and delegates, without snapshotting tint/transform. -/
def drawRenderTarget (position : ℚ × ℚ) (target : Target) (g : GState) :
    GState :=
  imagePhaseNoSnapshot
    (ImageRenderer.drawRenderTarget position.1 position.2 target)
    (commitShapeR g)

/-- `Graphics.drawBitmapText` (lines 327-330): flushes the shape batch and
delegates, without snapshotting tint/transform. -/
def drawBitmapText (position : ℚ × ℚ) (font : BitmapFontQ)
    (text : List Char) (g : GState) : GState :=
  imagePhaseNoSnapshot
    (ImageRenderer.drawBitmapText position.1 position.2 font text)
    (commitShapeR g)

end Graphics

/-! ### Drawing-call sequences -/

/-- One terminating public drawing call of the `Graphics` facade.  The
four self-recursive methods (`drawFilledCircle`, `drawCircle`,
`drawFilledPolygon`, `drawPolygon`) never return (see
`Graphics.drawFilledCircleFuel` and claim C3) and append nothing, so they
have no constructor here. -/
inductive DrawOp
  | fillTri (p1 p2 p3 : ℚ × ℚ)
  | line (p1 p2 : ℚ × ℚ) (align : LineAlign) (lineWidth : ℚ)
  | fillRect (rect : Rect)
  | rect (r : Rect) (lineWidth : ℚ)
  | image (img : Image) (position : ℚ × ℚ) (flip : Flip)
      (frame : Option Rect) (size : Option (ℚ × ℚ))
  | imagePoints (img : Image) (topLeft topRight bottomRight
      bottomLeft : ℚ × ℚ) (frame : Option Rect)
  | renderTarget (position : ℚ × ℚ) (target : Target)
  | bitmapText (position : ℚ × ℚ) (font : BitmapFontQ) (text : List Char)

/-- Whether the call draws with the shape batch. -/
def DrawOp.usesShape : DrawOp → Bool
  | .fillTri .. | .line .. | .fillRect .. | .rect .. => true
  | _ => false

/-- Whether the call draws with the image batch. -/
def DrawOp.usesImage : DrawOp → Bool
  | .image .. | .imagePoints .. | .renderTarget .. | .bitmapText .. => true
  | _ => false

/-- Run one facade drawing call. -/
def runOp (m : JsMath) (g : GState) : DrawOp → GState
  | .fillTri p1 p2 p3 => Graphics.drawFilledTriangle p1 p2 p3 g
  | .line p1 p2 align lw => Graphics.drawLine m p1 p2 align lw g
  | .fillRect r => Graphics.drawFilledRect r g
  | .rect r lw => Graphics.drawRect m r lw g
  | .image img pos flip frame size =>
    Graphics.drawImage img pos flip frame size g
  | .imagePoints img tl tr br bl frame =>
    Graphics.drawImagePoints img tl tr br bl frame g
  | .renderTarget pos tgt => Graphics.drawRenderTarget pos tgt g
  | .bitmapText pos font text => Graphics.drawBitmapText pos font text g

/-- Run a sequence of facade drawing calls. -/
def runOps (m : JsMath) : GState → List DrawOp → GState
  | g, [] => g
  | g, op :: rest => runOps m (runOp m g op) rest

/-! ### Concrete fixtures used in closed runs -/

/-- A concrete image fixture. -/
def img0 : Image := ⟨0, 8, 8⟩

/-- A second, distinct image fixture. -/
def img1 : Image := ⟨1, 16, 16⟩

/-- A concrete render-target fixture. -/
def tgt0 : Target := ⟨1, 32, 32⟩

/-- The font-atlas image fixture, distinct from `img0` and `img1`. -/
def atlasImg : Image := ⟨2, 64, 64⟩

/-- Glyph data for the character A: advance 10. -/
def cdA : BmFontChar := ⟨65, 0, 0, 5, 7, 0, 0, 10⟩

/-- Glyph data for the character B: advance 8. -/
def cdB : BmFontChar := ⟨66, 8, 0, 5, 7, 0, 0, 8⟩

/-- A concrete bitmap font: glyphs for A and B only, kerning of -2 for the
pair (A, B), 0 otherwise. -/
def testFont : BitmapFontQ where
  image := atlasImg
  charData := fun c =>
    if c = 'A' then some cdA else if c = 'B' then some cdB else none
  kerning := fun l r => if l = 'A' ∧ r = 'B' then -2 else 0

/-- Evaluation facts for the font fixture. -/
theorem tf_charA : testFont.charData 'A' = some cdA := rfl

theorem tf_charB : testFont.charData 'B' = some cdB := rfl

theorem tf_charC : testFont.charData 'C' = none := rfl

theorem tf_kernCB : testFont.kerning 'C' 'B' = 0 := rfl

theorem tf_kernAB : testFont.kerning 'A' 'B' = -2 := rfl

theorem tf_image : testFont.image = atlasImg := rfl

/-- The identity matrix transforms a point to itself (`w` evaluates to
1). -/
theorem transformMat4_identity (x y z : ℚ) :
    transformMat4 identityMat x y z = (x, y, z) := by
  simp [transformMat4, identityMat]

/-! ### Basic lemmas about the shape renderer -/

namespace ShapeRenderer

theorem updateBuffer_index (s : ShapeState) (p : ℚ × ℚ × ℚ) (c : ColorQ)
    (o : ℕ) : (updateBuffer s p c o).index = s.index := rfl

theorem updateBuffer_errors (s : ShapeState) (p : ℚ × ℚ × ℚ) (c : ColorQ)
    (o : ℕ) : (updateBuffer s p c o).errors = s.errors := rfl

/-- A triangle append on a non-full batch: no flush, cursor advances by
one, no error is reported, per-call fields untouched. -/
theorem drawSolidTriangle_noFlush (x1 y1 x2 y2 x3 y3 : ℚ) (c : ColorQ)
    (t : Mat4Value) (s : ShapeState) (h : s.index < BUFFER_SIZE) :
    (drawSolidTriangle x1 y1 x2 y2 x3 y3 c t s).1.index = s.index + 1
  ∧ (drawSolidTriangle x1 y1 x2 y2 x3 y3 c t s).1.errors = s.errors
  ∧ (drawSolidTriangle x1 y1 x2 y2 x3 y3 c t s).1.color = s.color
  ∧ (drawSolidTriangle x1 y1 x2 y2 x3 y3 c t s).1.transform = s.transform
  ∧ (drawSolidTriangle x1 y1 x2 y2 x3 y3 c t s).2 = [] := by
  have hn : ¬ BUFFER_SIZE ≤ s.index := Nat.not_le.mpr h
  simp [drawSolidTriangle, hn, updateBuffer]

/-- A triangle append always leaves the cursor within capacity, and never
reports an error or changes the per-call fields. -/
theorem drawSolidTriangle_le (x1 y1 x2 y2 x3 y3 : ℚ) (c : ColorQ)
    (t : Mat4Value) (s : ShapeState) :
    (drawSolidTriangle x1 y1 x2 y2 x3 y3 c t s).1.index ≤ BUFFER_SIZE
  ∧ (drawSolidTriangle x1 y1 x2 y2 x3 y3 c t s).1.errors = s.errors
  ∧ (drawSolidTriangle x1 y1 x2 y2 x3 y3 c t s).1.color = s.color
  ∧ (drawSolidTriangle x1 y1 x2 y2 x3 y3 c t s).1.transform = s.transform := by
  by_cases h : BUFFER_SIZE ≤ s.index
  · have hle4 : 4000 ≤ s.index := h
    have h0 : s.index ≠ 0 := by omega
    simp [drawSolidTriangle, drawBatch, BUFFER_SIZE, hle4, h0, updateBuffer]
  · have := drawSolidTriangle_noFlush x1 y1 x2 y2 x3 y3 c t s
      (Nat.not_le.mp h)
    refine ⟨?_, this.2.1, this.2.2.1, this.2.2.2.1⟩
    rw [this.1]
    exact Nat.not_le.mp h

/-- `f` appends exactly `k` triangles whenever `k` slots are free: no
flush event, no error report, per-call fields untouched. -/
def AppendsK (k : ℕ) (f : ShapeState → ShapeState × List Ev) : Prop :=
  ∀ s, s.index + k ≤ BUFFER_SIZE →
    (f s).1.index = s.index + k ∧ (f s).1.errors = s.errors
  ∧ (f s).1.color = s.color ∧ (f s).1.transform = s.transform
  ∧ (f s).2 = []

theorem appendsK_tri (x1 y1 x2 y2 x3 y3 : ℚ) (c : ColorQ) (t : Mat4Value) :
    AppendsK 1 (drawSolidTriangle x1 y1 x2 y2 x3 y3 c t) := by
  intro s h
  exact drawSolidTriangle_noFlush x1 y1 x2 y2 x3 y3 c t s (by omega)

theorem appendsK_seq {j k : ℕ} {f g : ShapeState → ShapeState × List Ev}
    (hf : AppendsK j f) (hg : AppendsK k g) :
    AppendsK (j + k) (fun s => seqEv (f s) g) := by
  intro s h
  obtain ⟨i1, e1, c1, t1, v1⟩ := hf s (by omega)
  obtain ⟨i2, e2, c2, t2, v2⟩ := hg (f s).1 (by omega)
  refine ⟨?_, ?_, ?_, ?_, ?_⟩ <;>
    simp [seqEv, i1, i2, e1, e2, c1, c2, t1, t2, v1, v2, Nat.add_assoc]

theorem appendsK_congr {j k : ℕ} {f : ShapeState → ShapeState × List Ev}
    (hf : AppendsK j f) (h : j = k) : AppendsK k f := h ▸ hf

/-- A line always decomposes into exactly two triangle appends, for every
alignment and all endpoints — including a zero-length line. -/
theorem appendsK_line (m : JsMath) (x1 y1 x2 y2 : ℚ) (align : LineAlign)
    (lw : ℚ) (c : ColorQ) (t : Mat4Value) :
    AppendsK 2 (fun s => drawLine m x1 y1 x2 y2 align lw c t s) := by
  cases align <;>
    · intro s h
      simp only [drawLine]
      exact appendsK_seq (appendsK_tri _ _ _ _ _ _ _ _)
        (appendsK_tri _ _ _ _ _ _ _ _) s h

theorem appendsK_circleLoop (m : JsMath) (x y cosv sinv lw : ℚ)
    (c : ColorQ) (t : Mat4Value) (n : ℕ) (sx sy : ℚ) :
    AppendsK (2 * n)
      (fun s => drawCircleLoop m x y cosv sinv lw c t n sx sy s) := by
  induction n generalizing sx sy with
  | zero => intro s h; simp [drawCircleLoop]
  | succ k ih =>
    intro s h
    simp only [drawCircleLoop]
    refine appendsK_congr (appendsK_seq
      (appendsK_line m _ _ _ _ .outside lw c t) (ih _ _)) (by ring) s
      (by omega)

end ShapeRenderer

/-- Sequencing after a step that emitted no events is the continuation
itself. -/
theorem seqEv_nil {σ : Type} (s : σ) (f : σ → σ × List Ev) :
    seqEv (s, []) f = f s := by
  simp [seqEv]

/-! ### Basic lemmas about the image renderer -/

namespace ImageRenderer

theorem updateBuffer_fields (s : ImgState) (p : ℚ × ℚ × ℚ) (c : ColorQ)
    (uv : ℚ × ℚ) (o : ℕ) :
    (updateBuffer s p c uv o).index = s.index
  ∧ (updateBuffer s p c uv o).currentImage = s.currentImage
  ∧ (updateBuffer s p c uv o).currentTarget = s.currentTarget
  ∧ (updateBuffer s p c uv o).pendingTex = s.pendingTex :=
  ⟨rfl, rfl, rfl, rfl⟩

/-- A commit on an empty batch is a no-op. -/
theorem commit_of_empty (s : ImgState) (h : s.index = 0) :
    commit s = (s, []) := by
  simp [commit, h]

/-- A commit with no bound texture source is a no-op — even when the
batch cursor is non-zero. -/
theorem commit_of_orphan (s : ImgState) (h1 : s.currentImage = none)
    (h2 : s.currentTarget = none) : commit s = (s, []) := by
  simp [commit, h1, h2]

/-- A commit on a non-empty batch with a bound texture source flushes:
one draw call for `index` quads, cursor and markers reset. -/
theorem commit_of_active (s : ImgState) (h : s.index ≠ 0)
    (h2 : s.currentImage ≠ none ∨ s.currentTarget ≠ none) :
    commit s = ({ s with index := 0, currentImage := none, currentTarget := none, pendingTex := [] }, [Ev.flushImage s.index]) := by
  rw [commit, if_neg]
  intro hc
  rcases hc with hc | ⟨hci, hct⟩
  · exact h hc
  · rcases h2 with h2 | h2
    · exact h2 hci
    · exact h2 hct

/-- The flush test for `drawImage` is false when the batch has room, no
render target is bound, and the bound image (if any) is the incoming
one. -/
theorem needsFlushForImage_false (s : ImgState) (img : Image)
    (h1 : s.index < BUFFER_SIZE) (h2 : s.currentTarget = none)
    (h3 : s.currentImage = none ∨ s.currentImage = some img) :
    needsFlushForImage s img = false := by
  rcases h3 with h3 | h3 <;>
    simp [needsFlushForImage, h2, h3, Nat.not_le.mpr h1]

/-- `drawImage` without a flush: one quad appended under the incoming
image, no events, per-call fields untouched. -/
theorem drawImage_noFlush (img : Image) (px py : ℚ) (flip : Flip)
    (frame : Option Rect) (size : Option (ℚ × ℚ)) (s : ImgState)
    (h : needsFlushForImage s img = false) :
    (drawImage img px py flip frame size s).1.index = s.index + 1
  ∧ (drawImage img px py flip frame size s).1.currentImage = some img
  ∧ (drawImage img px py flip frame size s).1.currentTarget
      = s.currentTarget
  ∧ (drawImage img px py flip frame size s).1.pendingTex
      = s.pendingTex ++ [TexSrc.img img]
  ∧ (drawImage img px py flip frame size s).2 = [] := by
  simp [drawImage, h, updateBuffer, pushQuad]

/-- `drawImage` when the flush test fires on an active batch: exactly one
flush of the existing `index` quads, then the new quad occupies slot zero
(the cursor ends at 1) under the incoming image alone. -/
theorem drawImage_flushesFirst (img : Image) (px py : ℚ) (flip : Flip)
    (frame : Option Rect) (size : Option (ℚ × ℚ)) (s : ImgState)
    (h : needsFlushForImage s img = true) (h0 : s.index ≠ 0)
    (h2 : s.currentImage ≠ none ∨ s.currentTarget ≠ none) :
    (drawImage img px py flip frame size s).2 = [Ev.flushImage s.index]
  ∧ (drawImage img px py flip frame size s).1.index = 1
  ∧ (drawImage img px py flip frame size s).1.currentImage = some img
  ∧ (drawImage img px py flip frame size s).1.pendingTex
      = [TexSrc.img img] := by
  simp [drawImage, h, commit_of_active s h0 h2, updateBuffer, pushQuad]

theorem drawGlyph_fields (font : BitmapFontQ) (px py xo : ℚ)
    (cd : BmFontChar) (s : ImgState) :
    (drawGlyph font px py xo cd s).index = s.index + 1
  ∧ (drawGlyph font px py xo cd s).currentImage = s.currentImage
  ∧ (drawGlyph font px py xo cd s).currentTarget = s.currentTarget
  ∧ (drawGlyph font px py xo cd s).pendingTex
      = s.pendingTex ++ [TexSrc.img font.image] :=
  ⟨rfl, rfl, rfl, rfl⟩

/-- A character with no glyph data is skipped: no quad, cursor unchanged —
but it still becomes the previous character for the next kerning pair. -/
theorem drawBitmapTextGo_skip (font : BitmapFontQ) (px py : ℚ)
    (prev : Option Char) (xOff : ℚ) (c : Char) (rest : List Char)
    (s : ImgState) (hc : font.charData c = none) :
    drawBitmapTextGo font px py prev xOff (c :: rest) s
      = drawBitmapTextGo font px py (some c) xOff rest s := by
  simp [drawBitmapTextGo, hc]

/-- One glyph step without a capacity flush: the quad is placed at the
cursor plus the kerning against the immediately preceding character, and
the cursor advances by that kerning plus the glyph's advance. -/
theorem drawBitmapTextGo_glyph (font : BitmapFontQ) (px py : ℚ)
    (prev : Option Char) (xOff : ℚ) (c : Char) (rest : List Char)
    (s : ImgState) (cd : BmFontChar) (hc : font.charData c = some cd)
    (h : s.index < BUFFER_SIZE) :
    drawBitmapTextGo font px py prev xOff (c :: rest) s
      = drawBitmapTextGo font px py (some c)
          ((xOff + (match prev with
            | some p => font.kerning p c
            | Option.none => 0)) + cd.xAdvance) rest
          (drawGlyph font px py
            (xOff + (match prev with
              | some p => font.kerning p c
              | Option.none => 0)) cd s) := by
  have hB : ¬ BUFFER_SIZE ≤ s.index := Nat.not_le.mpr h
  simp [drawBitmapTextGo, hc, hB, seqEv]

/-- One glyph step on a state with no bound texture source: the inner
capacity commit is a no-op regardless of the cursor (the flush is skipped
because both markers are clear), and the quad is appended anyway. -/
theorem drawBitmapTextGo_glyph_orphan (font : BitmapFontQ) (px py : ℚ)
    (prev : Option Char) (xOff : ℚ) (c : Char) (rest : List Char)
    (s : ImgState) (cd : BmFontChar) (hc : font.charData c = some cd)
    (h1 : s.currentImage = none) (h2 : s.currentTarget = none) :
    drawBitmapTextGo font px py prev xOff (c :: rest) s
      = drawBitmapTextGo font px py (some c)
          ((xOff + (match prev with
            | some p => font.kerning p c
            | Option.none => 0)) + cd.xAdvance) rest
          (drawGlyph font px py
            (xOff + (match prev with
              | some p => font.kerning p c
              | Option.none => 0)) cd s) := by
  simp [drawBitmapTextGo, hc, commit_of_orphan s h1 h2, ite_self, seqEv]

/-- `drawBitmapText` on non-empty text when the initial flush test is
false: bind the font atlas and run the glyph loop. -/
theorem drawBitmapText_eq_noFlush (px py : ℚ) (font : BitmapFontQ)
    (text : List Char) (s : ImgState) (h : text ≠ [])
    (hf : needsFlushForImage s font.image = false) :
    drawBitmapText px py font text s
      = drawBitmapTextGo font px py none 0 text
          { s with currentImage := some font.image } := by
  cases text with
  | nil => exact absurd rfl h
  | cons c rest => simp [drawBitmapText, hf, seqEv]

/-- A run of `n` glyphs of A that stays within capacity: the cursor rises
by `n`, the texture markers are untouched, and `n` quads are journaled
under the font atlas; the loop then continues into `tail`. -/
theorem textRun_noOverflow (px py : ℚ) (n : ℕ) :
    ∀ (tail : List Char) (prev : Option Char) (xOff : ℚ) (s : ImgState),
    s.index + n ≤ BUFFER_SIZE →
    ∃ prev2 xOff2 s2,
      drawBitmapTextGo testFont px py prev xOff
          (List.replicate n 'A' ++ tail) s
        = drawBitmapTextGo testFont px py prev2 xOff2 tail s2
      ∧ s2.index = s.index + n
      ∧ s2.currentImage = s.currentImage
      ∧ s2.currentTarget = s.currentTarget
      ∧ s2.pendingTex
          = s.pendingTex ++ List.replicate n (TexSrc.img testFont.image) := by
  induction n with
  | zero =>
    intro tail prev xOff s h
    exact ⟨prev, xOff, s, by simp, by omega, rfl, rfl, by simp⟩
  | succ k ih =>
    intro tail prev xOff s h
    rw [List.replicate_succ, List.cons_append,
      drawBitmapTextGo_glyph testFont px py prev xOff 'A' _ s cdA tf_charA
        (by omega)]
    set K : ℚ := (match prev with
      | some p => testFont.kerning p 'A'
      | Option.none => 0) with hK
    obtain ⟨prev2, xOff2, s2, heq, hidx, hci, hct, hpt⟩ :=
      ih tail (some 'A') ((xOff + K) + cdA.xAdvance)
        (drawGlyph testFont px py (xOff + K) cdA s)
        (by rw [(drawGlyph_fields testFont px py (xOff + K) cdA s).1]; omega)
    rw [heq]
    refine ⟨prev2, xOff2, s2, rfl, ?_, ?_, ?_, ?_⟩
    · rw [hidx, (drawGlyph_fields testFont px py (xOff + K) cdA s).1]
      omega
    · rw [hci, (drawGlyph_fields testFont px py (xOff + K) cdA s).2.1]
    · rw [hct, (drawGlyph_fields testFont px py (xOff + K) cdA s).2.2.1]
    · rw [hpt, (drawGlyph_fields testFont px py (xOff + K) cdA s).2.2.2,
        List.replicate_succ]
      simp

/-- The glyph that hits the capacity bound on an active batch: exactly
one flush of `BUFFER_SIZE` quads happens first, and the loop continues on
a state with one pending quad and — the markers having been cleared by
the commit — no bound texture source. -/
theorem textRun_boundaryGlyph (px py : ℚ) (tail : List Char)
    (prev : Option Char) (xOff : ℚ) (s : ImgState)
    (h : s.index = BUFFER_SIZE)
    (h2 : s.currentImage ≠ none ∨ s.currentTarget ≠ none) :
    ∃ xOff2 s2,
      drawBitmapTextGo testFont px py prev xOff ('A' :: tail) s
        = ((drawBitmapTextGo testFont px py (some 'A') xOff2 tail s2).1,
           Ev.flushImage BUFFER_SIZE
             :: (drawBitmapTextGo testFont px py (some 'A') xOff2 tail s2).2)
      ∧ s2.index = 1 ∧ s2.currentImage = none ∧ s2.currentTarget = none
      ∧ s2.pendingTex = [TexSrc.img testFont.image] := by
  have h0 : s.index ≠ 0 := by rw [h]; norm_num [BUFFER_SIZE]
  have hcommit := commit_of_active s h0 h2
  have hBle : BUFFER_SIZE ≤ s.index := le_of_eq h.symm
  refine ⟨(xOff + (match prev with
      | some p => testFont.kerning p 'A'
      | Option.none => 0)) + cdA.xAdvance,
    drawGlyph testFont px py (xOff + (match prev with
      | some p => testFont.kerning p 'A'
      | Option.none => 0)) cdA
      { s with index := 0, currentImage := none, currentTarget := none, pendingTex := [] },
    ?_, rfl, rfl, rfl, rfl⟩
  simp [drawBitmapTextGo, tf_charA, hBle, hcommit, seqEv, h]

/-- A glyph run on an orphaned state (markers cleared, quads pending):
the capacity commit never fires again, so the cursor keeps growing by one
per glyph with no bound. -/
theorem textRun_orphan (px py : ℚ) (n : ℕ) :
    ∀ (prev : Option Char) (xOff : ℚ) (s : ImgState),
    s.currentImage = none → s.currentTarget = none →
    (drawBitmapTextGo testFont px py prev xOff
        (List.replicate n 'A') s).1.index = s.index + n
  ∧ (drawBitmapTextGo testFont px py prev xOff
        (List.replicate n 'A') s).1.currentImage = none
  ∧ (drawBitmapTextGo testFont px py prev xOff
        (List.replicate n 'A') s).1.currentTarget = none := by
  induction n with
  | zero =>
    intro prev xOff s h1 h2
    refine ⟨?_, ?_, ?_⟩ <;> simp [drawBitmapTextGo, h1, h2]
  | succ k ih =>
    intro prev xOff s h1 h2
    rw [List.replicate_succ,
      drawBitmapTextGo_glyph_orphan testFont px py prev xOff 'A' _ s cdA
        tf_charA h1 h2]
    set K : ℚ := (match prev with
      | some p => testFont.kerning p 'A'
      | Option.none => 0) with hK
    have hg := drawGlyph_fields testFont px py (xOff + K) cdA s
    obtain ⟨hidx, hci, hct⟩ := ih (some 'A') ((xOff + K) + cdA.xAdvance)
      (drawGlyph testFont px py (xOff + K) cdA s)
      (hg.2.1.trans h1) (hg.2.2.1.trans h2)
    exact ⟨by rw [hidx, hg.1]; omega, hci, hct⟩

end ImageRenderer

/-! ### The mid-string-overflow defect and its consequences -/

/-- The facade's `drawBitmapText` delegates to the image renderer on the
state left by the shape flush; the image renderer state it produces is
the renderer-level run on the facade's image state. -/
theorem Graphics.drawBitmapText_image_proj (pos : ℚ × ℚ)
    (font : BitmapFontQ) (text : List Char) (g : GState) :
    (Graphics.drawBitmapText pos font text g).image
      = (ImageRenderer.drawBitmapText pos.1 pos.2 font text g.image).1 := rfl

/-- The facade state after drawing a `BUFFER_SIZE + 1`-glyph string from
the initial state: the shape batch is empty, and the image batch holds
one orphaned glyph quad (see `sOrphan_spec`). -/
def gOrphan : GState :=
  Graphics.drawBitmapText (0, 0) testFont
    (List.replicate (BUFFER_SIZE + 1) 'A') gInit

/-- The image renderer state after the overflowing text draw: the
capacity flush before the last glyph cleared both texture markers, and
the loop appended the final glyph quad without re-binding the font
atlas. -/
def sOrphan : ImgState := gOrphan.image

/-- After the overflowing text draw, one glyph quad is pending while no
texture source is bound — the state the `commit` early-return treats as
having nothing to draw. -/
theorem sOrphan_spec :
    sOrphan.index = 1 ∧ sOrphan.currentImage = none
  ∧ sOrphan.currentTarget = none
  ∧ sOrphan.pendingTex = [TexSrc.img atlasImg] := by
  have e0 : sOrphan = (ImageRenderer.drawBitmapText 0 0 testFont
      (List.replicate (BUFFER_SIZE + 1) 'A') imgInit).1 := by
    unfold sOrphan gOrphan
    rw [Graphics.drawBitmapText_image_proj]
    norm_num [gInit]
  have hne : List.replicate (BUFFER_SIZE + 1) 'A' ≠ [] := by simp
  have hf : ImageRenderer.needsFlushForImage imgInit testFont.image
      = false :=
    ImageRenderer.needsFlushForImage_false imgInit testFont.image
      (by norm_num [imgInit, BUFFER_SIZE]) rfl (Or.inl rfl)
  have e1 := ImageRenderer.drawBitmapText_eq_noFlush 0 0 testFont
    (List.replicate (BUFFER_SIZE + 1) 'A') imgInit hne hf
  obtain ⟨prev2, xOff2, s2, heq, hidx, hci, hct, hpt⟩ :=
    ImageRenderer.textRun_noOverflow 0 0 BUFFER_SIZE ['A'] none 0
      { imgInit with currentImage := some testFont.image }
      (by norm_num [imgInit])
  have hidx2 : s2.index = BUFFER_SIZE := by
    rw [hidx]
    norm_num [imgInit]
  have hci2 : s2.currentImage = some testFont.image := hci
  obtain ⟨xOff3, s3, heq2, h3i, h3ci, h3ct, h3pt⟩ :=
    ImageRenderer.textRun_boundaryGlyph 0 0 [] prev2 xOff2 s2 hidx2
      (Or.inl (by rw [hci2]; simp))
  have e2 : ImageRenderer.drawBitmapTextGo testFont 0 0 none 0
      (List.replicate (BUFFER_SIZE + 1) 'A')
      { imgInit with currentImage := some testFont.image }
      = ImageRenderer.drawBitmapTextGo testFont 0 0 prev2 xOff2 ['A'] s2 := by
    rw [List.replicate_succ']
    exact heq
  have efinal : sOrphan = s3 := by
    rw [e0, e1, e2, heq2]
    rfl
  exact ⟨by rw [efinal]; exact h3i, by rw [efinal]; exact h3ci,
    by rw [efinal]; exact h3ct, by rw [efinal, h3pt, tf_image]⟩

/-- The image renderer state after drawing a `2 * BUFFER_SIZE + 1`-glyph
string from the initial state. -/
def sOverflow : ImgState :=
  (ImageRenderer.drawBitmapText 0 0 testFont
    (List.replicate (2 * BUFFER_SIZE + 1) 'A') imgInit).1

/-- After the capacity flush mid-string clears the texture markers, every
further capacity check's commit is a no-op, so the cursor passes the
capacity bound: the long text draw ends with `BUFFER_SIZE + 1` pending
quads. -/
theorem sOverflow_spec : sOverflow.index = BUFFER_SIZE + 1 := by
  have hne : List.replicate (2 * BUFFER_SIZE + 1) 'A' ≠ [] := by simp
  have hf : ImageRenderer.needsFlushForImage imgInit testFont.image
      = false :=
    ImageRenderer.needsFlushForImage_false imgInit testFont.image
      (by norm_num [imgInit, BUFFER_SIZE]) rfl (Or.inl rfl)
  have e1 := ImageRenderer.drawBitmapText_eq_noFlush 0 0 testFont
    (List.replicate (2 * BUFFER_SIZE + 1) 'A') imgInit hne hf
  have hsplit : List.replicate (2 * BUFFER_SIZE + 1) 'A'
      = List.replicate BUFFER_SIZE 'A'
        ++ ('A' :: List.replicate BUFFER_SIZE 'A') := by
    rw [show 2 * BUFFER_SIZE + 1 = BUFFER_SIZE + (BUFFER_SIZE + 1) by ring,
      List.replicate_add, List.replicate_succ]
  obtain ⟨prev2, xOff2, s2, heq, hidx, hci, hct, hpt⟩ :=
    ImageRenderer.textRun_noOverflow 0 0 BUFFER_SIZE
      ('A' :: List.replicate BUFFER_SIZE 'A') none 0
      { imgInit with currentImage := some testFont.image }
      (by norm_num [imgInit])
  have hidx2 : s2.index = BUFFER_SIZE := by
    rw [hidx]
    norm_num [imgInit]
  obtain ⟨xOff3, s3, heq2, h3i, h3ci, h3ct, h3pt⟩ :=
    ImageRenderer.textRun_boundaryGlyph 0 0 (List.replicate BUFFER_SIZE 'A')
      prev2 xOff2 s2 hidx2 (Or.inl (by rw [hci]; simp))
  obtain ⟨h4i, h4ci, h4ct⟩ :=
    ImageRenderer.textRun_orphan 0 0 BUFFER_SIZE (some 'A') xOff3 s3
      h3ci h3ct
  have e2 : ImageRenderer.drawBitmapTextGo testFont 0 0 none 0
      (List.replicate (2 * BUFFER_SIZE + 1) 'A')
      { imgInit with currentImage := some testFont.image }
      = ImageRenderer.drawBitmapTextGo testFont 0 0 prev2 xOff2
          ('A' :: List.replicate BUFFER_SIZE 'A') s2 := by
    rw [hsplit]
    exact heq
  have efinal : sOverflow.index
      = (ImageRenderer.drawBitmapTextGo testFont 0 0 (some 'A') xOff3
          (List.replicate BUFFER_SIZE 'A') s3).1.index := by
    unfold sOverflow
    rw [e1, e2, heq2]
  rw [efinal, h4i, h3i]
  omega

/-- C2 (code bug).  The image renderer's pending-primitive count exceeds
`BUFFER_SIZE` on a reachable input: after a single `drawBitmapText` call
with `2 * BUFFER_SIZE + 1` glyphs, the cursor stands at
`BUFFER_SIZE + 1 = 4001` — the mid-string capacity flush cleared
`currentImage`, so every later capacity check's `commit` returns through
its markers-clear early exit without flushing, while the glyph loop keeps
appending. -/
theorem C2_capacity_exceeded_on_text_overflow :
    BUFFER_SIZE < sOverflow.index ∧ sOverflow.index = BUFFER_SIZE + 1 :=
  ⟨by rw [sOverflow_spec]; omega, sOverflow_spec⟩

/-- C4 (code bug).  Drawing a different image while the orphaned glyph
quad is pending produces no flush at all — and the unflushed buffer then
holds quads of two different texture sources (the font atlas and
`img1`). -/
theorem C4_mixed_texture_batch_without_flush :
    (ImageRenderer.drawImage img1 0 0 .none none none sOrphan).2 = []
  ∧ (ImageRenderer.drawImage img1 0 0 .none none none sOrphan).1.pendingTex
      = [TexSrc.img atlasImg, TexSrc.img img1]
  ∧ atlasImg ≠ img1 := by
  obtain ⟨h1, h2, h3, h4⟩ := sOrphan_spec
  have hf : ImageRenderer.needsFlushForImage sOrphan img1 = false :=
    ImageRenderer.needsFlushForImage_false sOrphan img1
      (by rw [h1]; norm_num [BUFFER_SIZE]) h3 (Or.inl h2)
  have hd := ImageRenderer.drawImage_noFlush img1 0 0 .none none none
    sOrphan hf
  refine ⟨hd.2.2.2.2, ?_, by simp [atlasImg, img1]⟩
  rw [hd.2.2.2.1, h4]
  rfl

/-! ### Facade projection lemmas -/

namespace Graphics

theorem drawFilledTriangle_image (p1 p2 p3 : ℚ × ℚ) (g : GState) :
    (drawFilledTriangle p1 p2 p3 g).image = (ImageRenderer.commit g.image).1 := rfl

theorem drawFilledTriangle_shape (p1 p2 p3 : ℚ × ℚ) (g : GState) :
    (drawFilledTriangle p1 p2 p3 g).shape
      = (ShapeRenderer.drawSolidTriangle p1.1 p1.2 p2.1 p2.2 p3.1 p3.2
          g.color (transform g)
          { g.shape with color := g.color, transform := transform g }).1 := rfl

theorem drawFilledTriangle_trace (p1 p2 p3 : ℚ × ℚ) (g : GState) :
    (drawFilledTriangle p1 p2 p3 g).trace
      = (g.trace ++ (ImageRenderer.commit g.image).2)
        ++ (ShapeRenderer.drawSolidTriangle p1.1 p1.2 p2.1 p2.2 p3.1 p3.2
              g.color (transform g)
              { g.shape with color := g.color, transform := transform g }).2 := rfl

end Graphics

/-- C1 (code bug).  On the reachable state after an overflowing
`drawBitmapText`, a shape draw does call the image renderer's flush
first — but that flush is a no-op (the mid-string commit cleared the
texture markers while one quad stayed pending), so the shape primitive is
appended while the image renderer's pending count is 1, not 0, and no
flush event is recorded. -/
theorem C1_shape_append_with_pending_image_batch :
    (Graphics.drawFilledTriangle (0, 0) (1, 0) (0, 1) gOrphan).shape.index = 1
  ∧ (Graphics.drawFilledTriangle (0, 0) (1, 0) (0, 1) gOrphan).image.index = 1
  ∧ (Graphics.drawFilledTriangle (0, 0) (1, 0) (0, 1) gOrphan).trace
      = gOrphan.trace := by
  obtain ⟨h1, h2, h3, h4⟩ := sOrphan_spec
  have hgi : gOrphan.image = sOrphan := rfl
  have hsh : gOrphan.shape.index = 0 := rfl
  have hcommit := ImageRenderer.commit_of_orphan sOrphan h2 h3
  have hs := ShapeRenderer.drawSolidTriangle_noFlush 0 0 1 0 0 1
    gOrphan.color (Graphics.transform gOrphan)
    { gOrphan.shape with color := gOrphan.color, transform := Graphics.transform gOrphan }
    (by show gOrphan.shape.index < BUFFER_SIZE
        rw [hsh]
        norm_num [BUFFER_SIZE])
  refine ⟨?_, ?_, ?_⟩
  · rw [Graphics.drawFilledTriangle_shape, hs.1]
    rfl
  · rw [Graphics.drawFilledTriangle_image, hgi, hcommit]
    exact h1
  · rw [Graphics.drawFilledTriangle_trace, hgi, hcommit, hs.2.2.2.2]
    simp

/-! ### Claim C7: bitmap-text glyph skipping and kerning -/

/-- C7 (amended).  A character with no glyph entry produces no quad and
leaves the cursor unchanged, and a character with a glyph is placed at
the cursor plus kerning and advances the cursor by kerning plus advance —
but the kerning pair is the immediately preceding character of the string
(`text[i - 1]`), whether or not that character had a glyph, not the last
character that had one.  With `kerning(A, B) = -2` and advance 10 for A,
drawing "AB" at `x = 0` places glyph A's quad at `x = 0` and glyph B's
quad at `x = 8`. -/
theorem C7_bitmap_text_glyph_skipping (font : BitmapFontQ) (px py : ℚ)
    (prev : Option Char) (xOff : ℚ) (c : Char) (rest : List Char)
    (s : ImgState) :
    (font.charData c = none →
      ImageRenderer.drawBitmapTextGo font px py prev xOff (c :: rest) s
        = ImageRenderer.drawBitmapTextGo font px py (some c) xOff rest s)
  ∧ (∀ cd, font.charData c = some cd → s.index < BUFFER_SIZE →
      ImageRenderer.drawBitmapTextGo font px py prev xOff (c :: rest) s
        = ImageRenderer.drawBitmapTextGo font px py (some c)
            ((xOff + (match prev with
              | some p => font.kerning p c
              | Option.none => 0)) + cd.xAdvance) rest
            (ImageRenderer.drawGlyph font px py
              (xOff + (match prev with
                | some p => font.kerning p c
                | Option.none => 0)) cd s))
  ∧ ((ImageRenderer.drawBitmapText 0 0 testFont ['A', 'B'] imgInit).1.buf 0
      = 0
    ∧ (ImageRenderer.drawBitmapText 0 0 testFont ['A', 'B'] imgInit).1.buf 36
      = 8
    ∧ (ImageRenderer.drawBitmapText 0 0 testFont ['A', 'B'] imgInit).1.index
      = 2) := by
  refine ⟨fun hc => ImageRenderer.drawBitmapTextGo_skip font px py prev
      xOff c rest s hc,
    fun cd hc h => ImageRenderer.drawBitmapTextGo_glyph font px py prev
      xOff c rest s cd hc h, ?_, ?_, ?_⟩ <;>
    norm_num [ImageRenderer.drawBitmapText, ImageRenderer.drawBitmapTextGo,
      ImageRenderer.needsFlushForImage, ImageRenderer.commit,
      ImageRenderer.drawGlyph, ImageRenderer.updateBuffer,
      ImageRenderer.pushQuad, tf_charA, tf_charB, tf_kernAB, tf_image,
      imgInit, atlasImg, cdA, cdB, transformMat4_identity, seqEv, writeBuf,
      BUFFER_SIZE, whiteColor]

/-- C7 counterexample: with the glyphless character C between A and B
(`kerning(A, B) = -2`, all other kerning 0), drawing "ACB" places glyph
B's quad at `x = 10` — the kerning is looked up for the pair (C, B), the
immediately preceding character, not (A, B), the last character that had
a glyph, which would give `x = 8`. -/
theorem C7_counterexample_kerning_pair_after_skip :
    (ImageRenderer.drawBitmapText 0 0 testFont ['A', 'C', 'B']
        imgInit).1.buf 36 = 10
  ∧ ¬ (ImageRenderer.drawBitmapText 0 0 testFont ['A', 'C', 'B']
        imgInit).1.buf 36 = 8
  ∧ testFont.kerning 'A' 'B' = -2 ∧ testFont.kerning 'C' 'B' = 0 := by
  have h : (ImageRenderer.drawBitmapText 0 0 testFont ['A', 'C', 'B']
      imgInit).1.buf 36 = 10 := by
    norm_num [ImageRenderer.drawBitmapText, ImageRenderer.drawBitmapTextGo,
      ImageRenderer.needsFlushForImage, ImageRenderer.commit,
      ImageRenderer.drawGlyph, ImageRenderer.updateBuffer,
      ImageRenderer.pushQuad, tf_charA, tf_charB, tf_charC, tf_kernCB,
      tf_image, imgInit, atlasImg, cdA, cdB, transformMat4_identity, seqEv,
      writeBuf, BUFFER_SIZE, whiteColor]
  refine ⟨h, ?_, tf_kernAB, tf_kernCB⟩
  rw [h]
  norm_num

/-- Witness for C7: the skip equation at the glyphless C, and the glyph
step at A from the initial state. -/
theorem C7_bitmap_text_glyph_skipping_witness :
    ImageRenderer.drawBitmapTextGo testFont 0 0 (some 'A') 10 ['C', 'B']
        imgInit
      = ImageRenderer.drawBitmapTextGo testFont 0 0 (some 'C') 10 ['B']
          imgInit
  ∧ ImageRenderer.drawBitmapTextGo testFont 0 0 none 0 ['A'] imgInit
      = ImageRenderer.drawBitmapTextGo testFont 0 0 (some 'A') 10 []
          (ImageRenderer.drawGlyph testFont 0 0 0 cdA imgInit) := by
  constructor
  · exact (C7_bitmap_text_glyph_skipping testFont 0 0 (some 'A') 10 'C'
      ['B'] imgInit).1 tf_charC
  · have h := (C7_bitmap_text_glyph_skipping testFont 0 0 none 0 'A' []
      imgInit).2.1 cdA tf_charA (by norm_num [imgInit, BUFFER_SIZE])
    simpa [cdA] using h

/-! ### Per-call field preservation (for the snapshot claim) -/

namespace ShapeRenderer

/-- `f` never writes the per-call `color`/`transform` fields. -/
def PreservesCT (f : ShapeState → ShapeState × List Ev) : Prop :=
  ∀ s, (f s).1.color = s.color ∧ (f s).1.transform = s.transform

theorem preservesCT_tri (x1 y1 x2 y2 x3 y3 : ℚ) (c : ColorQ)
    (t : Mat4Value) : PreservesCT (drawSolidTriangle x1 y1 x2 y2 x3 y3 c t) :=
  fun s => ⟨(drawSolidTriangle_le x1 y1 x2 y2 x3 y3 c t s).2.2.1,
    (drawSolidTriangle_le x1 y1 x2 y2 x3 y3 c t s).2.2.2⟩

theorem preservesCT_seq {f g : ShapeState → ShapeState × List Ev}
    (hf : PreservesCT f) (hg : PreservesCT g) :
    PreservesCT (fun s => seqEv (f s) g) :=
  fun s => ⟨((hg (f s).1).1).trans (hf s).1, ((hg (f s).1).2).trans (hf s).2⟩

theorem preservesCT_line (m : JsMath) (x1 y1 x2 y2 : ℚ) (align : LineAlign)
    (lw : ℚ) (c : ColorQ) (t : Mat4Value) :
    PreservesCT (fun s => drawLine m x1 y1 x2 y2 align lw c t s) := by
  cases align <;>
    · intro s
      simp only [drawLine]
      exact preservesCT_seq (preservesCT_tri _ _ _ _ _ _ _ _)
        (preservesCT_tri _ _ _ _ _ _ _ _) s

theorem preservesCT_solidRect (x y w h : ℚ) (c : ColorQ) (t : Mat4Value) :
    PreservesCT (fun s => drawSolidRect x y w h c t s) := by
  intro s
  simp only [drawSolidRect]
  exact preservesCT_seq (preservesCT_tri _ _ _ _ _ _ _ _)
    (preservesCT_tri _ _ _ _ _ _ _ _) s

theorem preservesCT_rect (m : JsMath) (x y w h lw : ℚ) (c : ColorQ)
    (t : Mat4Value) :
    PreservesCT (fun s => drawRect m x y w h lw c t s) := by
  intro s
  simp only [drawRect]
  exact preservesCT_seq (preservesCT_seq (preservesCT_seq
    (preservesCT_line m _ _ _ _ _ _ _ _) (preservesCT_line m _ _ _ _ _ _ _ _))
    (preservesCT_line m _ _ _ _ _ _ _ _)) (preservesCT_line m _ _ _ _ _ _ _ _) s

end ShapeRenderer

namespace ImageRenderer

theorem commit_preservesCT (s : ImgState) :
    (commit s).1.color = s.color ∧ (commit s).1.transform = s.transform := by
  by_cases h : s.index = 0 ∨ (s.currentImage = none ∧ s.currentTarget = none) <;>
    simp [commit, h]

theorem drawImage_preservesCT (img : Image) (px py : ℚ) (flip : Flip)
    (frame : Option Rect) (size : Option (ℚ × ℚ)) (s : ImgState) :
    (drawImage img px py flip frame size s).1.color = s.color
  ∧ (drawImage img px py flip frame size s).1.transform = s.transform := by
  cases hb : needsFlushForImage s img <;>
    simp [drawImage, hb, updateBuffer, pushQuad, (commit_preservesCT s).1,
      (commit_preservesCT s).2]

theorem drawImagePoints_preservesCT (img : Image) (tl tr br bl : ℚ × ℚ)
    (frame : Option Rect) (s : ImgState) :
    (drawImagePoints img tl tr br bl frame s).1.color = s.color
  ∧ (drawImagePoints img tl tr br bl frame s).1.transform = s.transform := by
  cases hb : needsFlushForImage s img <;>
    simp [drawImagePoints, hb, updateBuffer, pushQuad,
      (commit_preservesCT s).1, (commit_preservesCT s).2]

theorem drawRenderTarget_preservesCT (px py : ℚ) (tgt : Target)
    (s : ImgState) :
    (drawRenderTarget px py tgt s).1.color = s.color
  ∧ (drawRenderTarget px py tgt s).1.transform = s.transform := by
  cases hb : needsFlushForTarget s tgt <;>
    simp [drawRenderTarget, hb, updateBuffer, pushQuad,
      (commit_preservesCT s).1, (commit_preservesCT s).2]

theorem drawBitmapTextGo_preservesCT (font : BitmapFontQ) (px py : ℚ) :
    ∀ (text : List Char) (prev : Option Char) (xOff : ℚ) (s : ImgState),
    (drawBitmapTextGo font px py prev xOff text s).1.color = s.color
  ∧ (drawBitmapTextGo font px py prev xOff text s).1.transform
      = s.transform := by
  intro text
  induction text with
  | nil => intro prev xOff s; exact ⟨rfl, rfl⟩
  | cons c rest ih =>
    intro prev xOff s
    cases hc : font.charData c with
    | none =>
      rw [drawBitmapTextGo_skip font px py prev xOff c rest s hc]
      exact ih (some c) xOff s
    | some cd =>
      simp only [drawBitmapTextGo, hc, seqEv]
      have hstep : (if BUFFER_SIZE ≤ s.index then commit s
            else (s, [])).1.color = s.color
          ∧ (if BUFFER_SIZE ≤ s.index then commit s
            else (s, [])).1.transform = s.transform := by
        by_cases hB : BUFFER_SIZE ≤ s.index <;>
          simp [hB, (commit_preservesCT s).1, (commit_preservesCT s).2]
      exact ⟨(ih _ _ _).1.trans hstep.1, (ih _ _ _).2.trans hstep.2⟩

theorem drawBitmapText_preservesCT (px py : ℚ) (font : BitmapFontQ)
    (text : List Char) (s : ImgState) :
    (drawBitmapText px py font text s).1.color = s.color
  ∧ (drawBitmapText px py font text s).1.transform = s.transform := by
  cases text with
  | nil => exact ⟨rfl, rfl⟩
  | cons c rest =>
    cases hb : needsFlushForImage s font.image <;>
      · simp only [drawBitmapText, hb, seqEv, Bool.false_eq_true,
          if_false, if_true]
        refine ⟨(drawBitmapTextGo_preservesCT font px py _ _ _ _).1.trans ?_,
          (drawBitmapTextGo_preservesCT font px py _ _ _ _).2.trans ?_⟩ <;>
          simp [(commit_preservesCT s).1, (commit_preservesCT s).2]

end ImageRenderer

/-! ### Facade delegation projections -/

namespace Graphics

theorem drawLine_shape_proj (m : JsMath) (p1 p2 : ℚ × ℚ)
    (align : LineAlign) (lw : ℚ) (g : GState) :
    (drawLine m p1 p2 align lw g).shape
      = (ShapeRenderer.drawLine m p1.1 p1.2 p2.1 p2.2 align lw g.color
          (transform g)
          { g.shape with color := g.color, transform := transform g }).1 := rfl

theorem drawFilledRect_shape_proj (rect : Rect) (g : GState) :
    (drawFilledRect rect g).shape
      = (ShapeRenderer.drawSolidRect rect.x rect.y rect.width rect.height
          g.color (transform g)
          { g.shape with color := g.color, transform := transform g }).1 := rfl

theorem shapePhase_shape (f : ColorQ → Mat4Value → ShapeState → ShapeState × List Ev) (g : GState) :
    (shapePhase f g).shape
      = (f g.color (transform g)
          { g.shape with color := g.color, transform := transform g }).1 := rfl

theorem commitImageR_color (g : GState) : (commitImageR g).color = g.color := rfl

theorem commitImageR_shape (g : GState) : (commitImageR g).shape = g.shape := rfl

theorem commitImageR_transform (g : GState) :
    transform (commitImageR g) = transform g := rfl

theorem drawRect_shape_proj (m : JsMath) (rect : Rect) (lw : ℚ)
    (g : GState) :
    (drawRect m rect lw g).shape
      = (ShapeRenderer.drawRect m rect.x rect.y rect.width rect.height lw
          g.color (transform g)
          { g.shape with color := g.color, transform := transform g }).1 := by
  simp only [drawRect, shapePhase_shape, commitImageR_color,
    commitImageR_shape, commitImageR_transform]

theorem drawImage_image_proj (img : Image) (pos : ℚ × ℚ) (flip : Flip)
    (frame : Option Rect) (size : Option (ℚ × ℚ)) (g : GState) :
    (drawImage img pos flip frame size g).image
      = (ImageRenderer.drawImage img pos.1 pos.2 flip frame size
          { g.image with color := g.color, transform := transform g }).1 := rfl

theorem drawImagePoints_image_proj (img : Image) (tl tr br bl : ℚ × ℚ)
    (frame : Option Rect) (g : GState) :
    (drawImagePoints img tl tr br bl frame g).image
      = (ImageRenderer.drawImagePoints img tl tr br bl frame
          { g.image with color := g.color, transform := transform g }).1 := rfl

theorem drawRenderTarget_image_proj (pos : ℚ × ℚ) (tgt : Target)
    (g : GState) :
    (drawRenderTarget pos tgt g).image
      = (ImageRenderer.drawRenderTarget pos.1 pos.2 tgt g.image).1 := rfl

end Graphics

/-! ### Claim C8: per-draw-call snapshot -/

/-- C8 (amended).  The facade methods `drawFilledTriangle`, `drawLine`,
`drawFilledRect`, `drawRect`, `drawImage` and `drawImagePoints` copy the
facade's current tint and top-of-stack transform into the target
renderer's per-call fields before delegating, and the renderer algorithms
never change those fields — but `drawRenderTarget` and `drawBitmapText`
do not: they delegate directly, leaving the image renderer's per-call
color and transform at whatever the last snapshotting call set. -/
theorem C8_per_call_snapshot (m : JsMath) (g : GState) (p1 p2 p3 : ℚ × ℚ)
    (align : LineAlign) (lw : ℚ) (rect : Rect) (img : Image)
    (pos tl tr br bl : ℚ × ℚ) (flip : Flip) (frame : Option Rect)
    (size : Option (ℚ × ℚ)) (tgt : Target) (font : BitmapFontQ)
    (text : List Char) :
    ((Graphics.drawFilledTriangle p1 p2 p3 g).shape.color = g.color
      ∧ (Graphics.drawFilledTriangle p1 p2 p3 g).shape.transform
          = Graphics.transform g)
  ∧ ((Graphics.drawLine m p1 p2 align lw g).shape.color = g.color
      ∧ (Graphics.drawLine m p1 p2 align lw g).shape.transform
          = Graphics.transform g)
  ∧ ((Graphics.drawFilledRect rect g).shape.color = g.color
      ∧ (Graphics.drawFilledRect rect g).shape.transform
          = Graphics.transform g)
  ∧ ((Graphics.drawRect m rect lw g).shape.color = g.color
      ∧ (Graphics.drawRect m rect lw g).shape.transform
          = Graphics.transform g)
  ∧ ((Graphics.drawImage img pos flip frame size g).image.color = g.color
      ∧ (Graphics.drawImage img pos flip frame size g).image.transform
          = Graphics.transform g)
  ∧ ((Graphics.drawImagePoints img tl tr br bl frame g).image.color
        = g.color
      ∧ (Graphics.drawImagePoints img tl tr br bl frame g).image.transform
          = Graphics.transform g)
  ∧ ((Graphics.drawRenderTarget pos tgt g).image.color = g.image.color
      ∧ (Graphics.drawRenderTarget pos tgt g).image.transform
          = g.image.transform)
  ∧ ((Graphics.drawBitmapText pos font text g).image.color = g.image.color
      ∧ (Graphics.drawBitmapText pos font text g).image.transform
          = g.image.transform) := by
  refine ⟨⟨?_, ?_⟩, ⟨?_, ?_⟩, ⟨?_, ?_⟩, ⟨?_, ?_⟩, ⟨?_, ?_⟩, ⟨?_, ?_⟩,
    ⟨?_, ?_⟩, ⟨?_, ?_⟩⟩
  · rw [Graphics.drawFilledTriangle_shape]
    exact (ShapeRenderer.drawSolidTriangle_le _ _ _ _ _ _ _ _ _).2.2.1
  · rw [Graphics.drawFilledTriangle_shape]
    exact (ShapeRenderer.drawSolidTriangle_le _ _ _ _ _ _ _ _ _).2.2.2
  · rw [Graphics.drawLine_shape_proj]
    exact (ShapeRenderer.preservesCT_line m _ _ _ _ _ _ _ _ _).1
  · rw [Graphics.drawLine_shape_proj]
    exact (ShapeRenderer.preservesCT_line m _ _ _ _ _ _ _ _ _).2
  · rw [Graphics.drawFilledRect_shape_proj]
    exact (ShapeRenderer.preservesCT_solidRect _ _ _ _ _ _ _).1
  · rw [Graphics.drawFilledRect_shape_proj]
    exact (ShapeRenderer.preservesCT_solidRect _ _ _ _ _ _ _).2
  · rw [Graphics.drawRect_shape_proj]
    exact (ShapeRenderer.preservesCT_rect m _ _ _ _ _ _ _ _).1
  · rw [Graphics.drawRect_shape_proj]
    exact (ShapeRenderer.preservesCT_rect m _ _ _ _ _ _ _ _).2
  · rw [Graphics.drawImage_image_proj]
    exact (ImageRenderer.drawImage_preservesCT img pos.1 pos.2 flip frame
      size _).1
  · rw [Graphics.drawImage_image_proj]
    exact (ImageRenderer.drawImage_preservesCT img pos.1 pos.2 flip frame
      size _).2
  · rw [Graphics.drawImagePoints_image_proj]
    exact (ImageRenderer.drawImagePoints_preservesCT img tl tr br bl
      frame _).1
  · rw [Graphics.drawImagePoints_image_proj]
    exact (ImageRenderer.drawImagePoints_preservesCT img tl tr br bl
      frame _).2
  · rw [Graphics.drawRenderTarget_image_proj]
    exact (ImageRenderer.drawRenderTarget_preservesCT pos.1 pos.2 tgt
      g.image).1
  · rw [Graphics.drawRenderTarget_image_proj]
    exact (ImageRenderer.drawRenderTarget_preservesCT pos.1 pos.2 tgt
      g.image).2
  · rw [Graphics.drawBitmapText_image_proj]
    exact (ImageRenderer.drawBitmapText_preservesCT pos.1 pos.2 font text
      g.image).1
  · rw [Graphics.drawBitmapText_image_proj]
    exact (ImageRenderer.drawBitmapText_preservesCT pos.1 pos.2 font text
      g.image).2

/-- A facade state whose tint was changed to half-grey. -/
def gHalf : GState := { gInit with color := ⟨1 / 2, 1 / 2, 1 / 2, 1⟩ }

/-- C8 counterexample: after setting the facade tint to half-grey,
`drawRenderTarget` leaves the image renderer's per-call color at its old
value (white), and the quad it appends carries red component 1, not the
facade's 1/2 — the claim's snapshot does not happen for this method. -/
theorem C8_counterexample_drawRenderTarget_stale_tint :
    (Graphics.drawRenderTarget (0, 0) tgt0 gHalf).image.color ≠ gHalf.color
  ∧ (Graphics.drawRenderTarget (0, 0) tgt0 gHalf).image.color = whiteColor
  ∧ (Graphics.drawRenderTarget (0, 0) tgt0 gHalf).image.buf 3 = 1
  ∧ gHalf.color.red = 1 / 2 := by
  have hcol : (Graphics.drawRenderTarget (0, 0) tgt0 gHalf).image.color
      = whiteColor := by
    rw [Graphics.drawRenderTarget_image_proj]
    exact (ImageRenderer.drawRenderTarget_preservesCT 0 0 tgt0
      gHalf.image).1
  refine ⟨?_, hcol, ?_, rfl⟩
  · rw [hcol]
    norm_num [gHalf, whiteColor]
  · rw [Graphics.drawRenderTarget_image_proj]
    norm_num [ImageRenderer.drawRenderTarget,
      ImageRenderer.needsFlushForTarget, ImageRenderer.commit,
      ImageRenderer.updateBuffer, ImageRenderer.pushQuad, gHalf, gInit,
      imgInit, tgt0, seqEv, writeBuf, BUFFER_SIZE, transformMat4_identity,
      whiteColor]

/-! ### Claim C9: flip-mapping symmetry -/

/-- C9.  Flip-mapping symmetry: for every frame rectangle and texture
size, the four UV coordinates produced by `getFlippedUV` with
`flip = both` equal the `flip = none` mapping's coordinates with corners
exchanged diagonally (corner 0 with corner 2, corner 1 with corner 3). -/
theorem C9_flip_both_diagonal (frame : Rect) (textureSize : ℚ × ℚ) :
    ImageRenderer.getFlippedUV frame textureSize .both 0
      = ImageRenderer.getFlippedUV frame textureSize .none 2
  ∧ ImageRenderer.getFlippedUV frame textureSize .both 1
      = ImageRenderer.getFlippedUV frame textureSize .none 3
  ∧ ImageRenderer.getFlippedUV frame textureSize .both 2
      = ImageRenderer.getFlippedUV frame textureSize .none 0
  ∧ ImageRenderer.getFlippedUV frame textureSize .both 3
      = ImageRenderer.getFlippedUV frame textureSize .none 1 :=
  ⟨rfl, rfl, rfl, rfl⟩

/-! ### Claim C3: the recursive facade circle/polygon methods -/

/-- C3.  The facade methods `drawFilledCircle`, `drawCircle`,
`drawFilledPolygon` and `drawPolygon` never terminate: after flushing the
image batch and snapshotting tint/transform, each calls itself with the
same arguments, so for every fuel bound the fuel-indexed model runs out of
fuel (`none`) without ever delegating to the shape renderer — no circle or
polygon geometry is ever appended through the facade. -/
theorem C3_recursive_draw_methods_never_terminate (center : ℚ × ℚ)
    (radius lineWidth : ℚ) (segments : ℕ) (vertices : List (ℚ × ℚ))
    (fuel : ℕ) (g : GState) :
    Graphics.drawFilledCircleFuel center radius segments fuel g = none
  ∧ Graphics.drawCircleFuel center radius segments lineWidth fuel g = none
  ∧ Graphics.drawFilledPolygonFuel center vertices fuel g = none
  ∧ Graphics.drawPolygonFuel center vertices lineWidth fuel g = none := by
  induction fuel generalizing g with
  | zero => exact ⟨rfl, rfl, rfl, rfl⟩
  | succ n ih => exact ⟨(ih _).1, (ih _).2.1, (ih _).2.2.1, (ih _).2.2.2⟩

/-! ### Claim C6: stack discipline -/

/-- Whether a facade call threw. -/
def throws (e : Except String GState) : Bool :=
  match e with
  | .error _ => true
  | .ok _ => false

/-- C6 (amended).  `pushTransform` throws exactly when the transform
stack holds 128 entries, `popTransform` throws exactly when at most the
base frame remains (so on the never-empty reachable stacks exactly when
only the base frame remains, which is therefore never removed), and
`pushTarget` throws exactly when the target stack holds 64 entries; but
`popTarget` on an empty target stack raises no error — it is silently
tolerated, leaving the stack empty and rebinding the default
framebuffer. -/
theorem C6_stack_discipline (g : GState) (t : Option Mat4Value)
    (tgt : Target) :
    (throws (Graphics.pushTransform t g) = true
      ↔ g.transformStack.length = MAX_TRANSFORM_STACK)
  ∧ (throws (Graphics.popTransform g) = true ↔ g.transformStack.length ≤ 1)
  ∧ (throws (Graphics.pushTarget tgt g) = true
      ↔ g.targetStack.length = MAX_TARGET_STACK)
  ∧ Graphics.popTarget g = .ok { g with targetStack := g.targetStack.tail }
  ∧ (∀ g2, Graphics.popTransform g = .ok g2 →
      g2.transformStack.length + 1 = g.transformStack.length
      ∧ g2.transformStack ≠ []) := by
  refine ⟨?_, ?_, ?_, rfl, ?_⟩
  · by_cases h : g.transformStack.length = MAX_TRANSFORM_STACK <;>
      simp [Graphics.pushTransform, throws, h]
  · by_cases h : g.transformStack.length ≤ 1
    · simp [Graphics.popTransform, throws, h]
    · cases hs : g.transformStack with
      | nil => rw [hs] at h; simp at h
      | cons hd tl =>
        rw [Graphics.popTransform, if_neg h, hs]
        rw [hs] at h
        show false = true ↔ (hd :: tl).length ≤ 1
        exact ⟨fun hh => absurd hh (by simp), fun hh => absurd hh h⟩
  · by_cases h : g.targetStack.length = MAX_TARGET_STACK <;>
      simp [Graphics.pushTarget, throws, h]
  · intro g2 h2
    rw [Graphics.popTransform] at h2
    by_cases h : g.transformStack.length ≤ 1
    · rw [if_pos h] at h2
      exact absurd h2 (by simp)
    · cases hs : g.transformStack with
      | nil => rw [hs] at h; simp at h
      | cons hd tl =>
        rw [hs] at h h2
        rw [if_neg h] at h2
        simp only [Except.ok.injEq] at h2
        subst h2
        refine ⟨by simp, fun hnil => ?_⟩
        have htl : tl = [] := hnil
        rw [htl] at h
        simp at h

/-- C6 counterexample: `popTarget` on the initial state, whose target
stack is empty, returns normally (the claim says it raises a hard
error). -/
theorem C6_counterexample_popTarget_no_error :
    Graphics.popTarget gInit = .ok gInit ∧ throws (Graphics.popTarget gInit) = false :=
  ⟨rfl, rfl⟩

/-- A state with two transform frames, for exercising `popTransform`. -/
def gTwo : GState := { gInit with transformStack := [identityMat, identityMat] }

/-- The result of `popTransform` on `gTwo`: the copy is removed and
returned to the pool. -/
def gTwoPopped : GState :=
  { gTwo with transformStack := [identityMat], matPool := [identityMat] }

/-- Witness for C6: a successful `popTransform` on a two-frame stack
shrinks the stack by one and leaves it non-empty. -/
theorem C6_stack_discipline_witness :
    gTwoPopped.transformStack.length + 1 = gTwo.transformStack.length
    ∧ gTwoPopped.transformStack ≠ [] :=
  (C6_stack_discipline gTwo none tgt0).2.2.2.2 gTwoPopped rfl

/-! ### Claim C10: transform push/pop round trip -/

/-- C10.  On every graphics state whose transform stack is non-empty (as
every reachable state's is: the constructor pushes the base frame and
`popTransform` refuses to remove it) and below the 128 bound, a
`pushTransform()` with no argument followed by `popTransform()` succeeds
and restores the entire transform stack — in particular the top matrix,
component by component, and the stack depth. -/
theorem C10_push_pop_roundtrip (g : GState) (h1 : g.transformStack ≠ [])
    (h2 : g.transformStack.length < MAX_TRANSFORM_STACK) :
    ∃ g1 g2, Graphics.pushTransform none g = .ok g1
      ∧ Graphics.popTransform g1 = .ok g2
      ∧ g2.transformStack = g.transformStack
      ∧ Graphics.transform g2 = Graphics.transform g
      ∧ g2.transformStack.length = g.transformStack.length := by
  have hne : g.transformStack.length ≠ MAX_TRANSFORM_STACK := Nat.ne_of_lt h2
  have hpos : 0 < g.transformStack.length := List.length_pos.mpr h1
  rcases hr : Mat4.getFromPool g.matPool (some (Graphics.transform g))
    with ⟨mval, pool⟩
  refine ⟨{ g with transformStack := mval :: g.transformStack, matPool := pool }, { g with matPool := mval :: pool }, ?_, ?_, rfl, rfl, rfl⟩
  · rw [Graphics.pushTransform, if_neg hne]
    simp only [Option.getD_none]
    rw [hr]
  · rw [Graphics.popTransform, if_neg ?_]
    case _ =>
      show ¬ ((mval :: g.transformStack).length ≤ 1)
      simp only [List.length_cons]
      omega

/-! ### Claim C5: degenerate shape inputs -/

/-- C5 (amended).  Of the degenerate shape inputs, only polygons are
validated: `drawPolygon` and `drawSolidPolygon` with fewer than 3 vertices
report the error (one `console.log`) and append no geometry.  A
zero-length line is not detected: it appends two triangles (of degenerate
coordinates) with no report, and a circle appends `2 * segments` triangles
for every radius and line width — including non-positive ones — with no
report.  None of these calls throws (every operation here is total). -/
theorem C5_degenerate_shape_inputs (m : JsMath) (x y lw : ℚ)
    (vertices : List (ℚ × ℚ)) (c : ColorQ) (t : Mat4Value)
    (s : ShapeState) :
    (vertices.length < 3 →
      ShapeRenderer.drawPolygon m x y vertices lw c t s
        = ({ s with errors := s.errors + 1 }, [])
      ∧ ShapeRenderer.drawSolidPolygon x y vertices c t s
        = ({ s with errors := s.errors + 1 }, []))
  ∧ (∀ x1 y1 align, s.index + 2 ≤ BUFFER_SIZE →
      (ShapeRenderer.drawLine m x1 y1 x1 y1 align lw c t s).1.index
        = s.index + 2
      ∧ (ShapeRenderer.drawLine m x1 y1 x1 y1 align lw c t s).1.errors
        = s.errors
      ∧ (ShapeRenderer.drawLine m x1 y1 x1 y1 align lw c t s).2 = [])
  ∧ (∀ radius (segments : ℕ), s.index + 2 * segments ≤ BUFFER_SIZE →
      (ShapeRenderer.drawCircle m x y radius segments lw c t s).1.index
        = s.index + 2 * segments
      ∧ (ShapeRenderer.drawCircle m x y radius segments lw c t s).1.errors
        = s.errors
      ∧ (ShapeRenderer.drawCircle m x y radius segments lw c t s).2 = []) := by
  refine ⟨?_, ?_, ?_⟩
  · intro hlen
    rcases vertices with _ | ⟨a, _ | ⟨b, _ | ⟨v3, rest⟩⟩⟩
    · exact ⟨rfl, rfl⟩
    · exact ⟨rfl, rfl⟩
    · exact ⟨rfl, rfl⟩
    · simp at hlen
      omega
  · intro x1 y1 align h
    have hl := ShapeRenderer.appendsK_line m x1 y1 x1 y1 align lw c t s h
    exact ⟨hl.1, hl.2.1, hl.2.2.2.2⟩
  · intro radius segments h
    simp only [ShapeRenderer.drawCircle]
    have hc := ShapeRenderer.appendsK_circleLoop m x y
      (m.cos (2 * m.pi / (segments : ℚ))) (m.sin (2 * m.pi / (segments : ℚ)))
      lw c t segments radius 0 s h
    exact ⟨hc.1, hc.2.1, hc.2.2.2.2⟩

/-- C5 counterexample: a zero-length line (both endpoints `(5, 5)`) from
the initial shape state appends two triangles (the pending count becomes
2, not 0 as the claim requires) and reports no error. -/
theorem C5_counterexample_zero_length_line :
    (ShapeRenderer.drawLine trivialMath 5 5 5 5 .center 1 whiteColor
      identityMat shapeInit).1.index = 2
  ∧ (ShapeRenderer.drawLine trivialMath 5 5 5 5 .center 1 whiteColor
      identityMat shapeInit).1.errors = 0 := by
  have hl := ShapeRenderer.appendsK_line trivialMath 5 5 5 5 .center 1
    whiteColor identityMat shapeInit (by norm_num [shapeInit, BUFFER_SIZE])
  refine ⟨?_, ?_⟩
  · rw [hl.1]
    rfl
  · rw [hl.2.1]
    rfl

/-- Witness for C5: the two-point polygon is rejected with one report and
no state change; a zero-length line and a zero-radius circle append
geometry without a report. -/
theorem C5_degenerate_shape_inputs_witness :
    ShapeRenderer.drawPolygon trivialMath 0 0 [(0, 0), (1, 1)] 1 whiteColor
      identityMat shapeInit
      = ({ shapeInit with errors := shapeInit.errors + 1 }, [])
  ∧ (ShapeRenderer.drawLine trivialMath 3 4 3 4 .inside 1 whiteColor
      identityMat shapeInit).1.index = shapeInit.index + 2
  ∧ (ShapeRenderer.drawCircle trivialMath 0 0 0 8 1 whiteColor identityMat
      shapeInit).1.index = shapeInit.index + 2 * 8 :=
  have h := C5_degenerate_shape_inputs trivialMath 0 0 1 [(0, 0), (1, 1)]
    whiteColor identityMat shapeInit
  ⟨(h.1 (by norm_num)).1,
   (h.2.1 3 4 .inside (by norm_num [shapeInit, BUFFER_SIZE])).1,
   (h.2.2 0 8 (by norm_num [shapeInit, BUFFER_SIZE])).1⟩

/-! ### Supporting results: the intact-regime behaviour behind C1, C2, C4 -/

/-- The shape flush always leaves the cursor at zero. -/
theorem drawBatch_index_zero (s : ShapeState) :
    (ShapeRenderer.drawBatch s).1.index = 0 := by
  by_cases h : s.index = 0 <;> simp [ShapeRenderer.drawBatch, h]

/-- Every terminating facade drawing call flushes the other renderer
first and never touches it afterwards: a shape call's image state is
exactly the image state after the image commit, and an image call's
shape state is the shape state after the shape flush, whose cursor is
always zero. -/
theorem crossBatch_flush_first (m : JsMath) (g : GState) (op : DrawOp) :
    (op.usesShape = true →
      (runOp m g op).image = (Graphics.commitImageR g).image)
  ∧ (op.usesImage = true →
      (runOp m g op).shape = (Graphics.commitShapeR g).shape
      ∧ (Graphics.commitShapeR g).shape.index = 0) := by
  cases op with
  | fillTri p1 p2 p3 =>
    exact ⟨fun _ => rfl, fun h => by simp [DrawOp.usesImage] at h⟩
  | line p1 p2 align lw =>
    exact ⟨fun _ => rfl, fun h => by simp [DrawOp.usesImage] at h⟩
  | fillRect r =>
    exact ⟨fun _ => rfl, fun h => by simp [DrawOp.usesImage] at h⟩
  | rect r lw =>
    exact ⟨fun _ => rfl, fun h => by simp [DrawOp.usesImage] at h⟩
  | image img pos flip frame size =>
    exact ⟨fun h => by simp [DrawOp.usesShape] at h,
      fun _ => ⟨rfl, drawBatch_index_zero g.shape⟩⟩
  | imagePoints img tl tr br bl frame =>
    exact ⟨fun h => by simp [DrawOp.usesShape] at h,
      fun _ => ⟨rfl, drawBatch_index_zero g.shape⟩⟩
  | renderTarget pos tgt =>
    exact ⟨fun h => by simp [DrawOp.usesShape] at h,
      fun _ => ⟨rfl, drawBatch_index_zero g.shape⟩⟩
  | bitmapText pos font text =>
    exact ⟨fun h => by simp [DrawOp.usesShape] at h,
      fun _ => ⟨rfl, drawBatch_index_zero g.shape⟩⟩

/-- Drawing shape A, then image B, then shape C, then committing the
frame produces exactly three flushes, in the order shape(1), image(1),
shape(1) — the shape batches are never merged across the intervening
image draw. -/
theorem threeFlush_ordering :
    (Graphics.commitG (runOps trivialMath gInit
      [DrawOp.fillTri (0, 0) (1, 0) (0, 1),
       DrawOp.image img0 (0, 0) .none none none,
       DrawOp.fillTri (2, 0) (3, 0) (2, 1)])).trace
    = [Ev.flushShape 1, Ev.flushImage 1, Ev.flushShape 1] := by
  norm_num [runOps, runOp, Graphics.commitG, Graphics.commitImageR,
    Graphics.commitShapeR, Graphics.drawFilledTriangle, Graphics.drawImage,
    Graphics.shapePhase, Graphics.imagePhase, Graphics.transform,
    ShapeRenderer.drawSolidTriangle, ShapeRenderer.drawBatch,
    ShapeRenderer.updateBuffer, ImageRenderer.drawImage,
    ImageRenderer.commit, ImageRenderer.needsFlushForImage,
    ImageRenderer.updateBuffer, ImageRenderer.pushQuad,
    ImageRenderer.getFlippedUV, gInit, shapeInit, imgInit, img0,
    Option.some_ne_none, Option.isSome_some, Option.isSome_none,
    seqEv, writeBuf, BUFFER_SIZE, transformMat4_identity, whiteColor]

/-- Repeated appends of one concrete triangle. -/
def iterTri : ℕ → ShapeState → ShapeState × List Ev
  | 0, s => (s, [])
  | n + 1, s =>
    seqEv (ShapeRenderer.drawSolidTriangle 7 11 13 17 19 23 whiteColor
      identityMat s) (iterTri n)

theorem iterTri_appendsK (n : ℕ) : ShapeRenderer.AppendsK n (iterTri n) := by
  induction n with
  | zero => intro s h; simp [iterTri]
  | succ k ih =>
    intro s h
    simp only [iterTri]
    exact ShapeRenderer.appendsK_congr (ShapeRenderer.appendsK_seq
      (ShapeRenderer.appendsK_tri 7 11 13 17 19 23 whiteColor identityMat)
      ih) (by omega) s h

/-- Shape-batch capacity boundary in the intact regime: `n ≤ capacity`
appends from the fresh state cause zero flushes and leave the cursor at
`n`; an append at full capacity first flushes exactly once (all 4000
triangles) and then writes the new triangle at slot zero, where its
transformed first vertex (7, 11) lands at buffer offsets 0 and 1. -/
theorem shape_capacity_boundary :
    (∀ n, n ≤ BUFFER_SIZE →
      (iterTri n shapeInit).1.index = n ∧ (iterTri n shapeInit).2 = [])
  ∧ (∀ s : ShapeState, s.index = BUFFER_SIZE →
      (ShapeRenderer.drawSolidTriangle 7 11 13 17 19 23 whiteColor
        identityMat s).2 = [Ev.flushShape BUFFER_SIZE]
      ∧ (ShapeRenderer.drawSolidTriangle 7 11 13 17 19 23 whiteColor
          identityMat s).1.index = 1
      ∧ (ShapeRenderer.drawSolidTriangle 7 11 13 17 19 23 whiteColor
          identityMat s).1.buf 0 = 7
      ∧ (ShapeRenderer.drawSolidTriangle 7 11 13 17 19 23 whiteColor
          identityMat s).1.buf 1 = 11) := by
  constructor
  · intro n hn
    have h := iterTri_appendsK n shapeInit (by
      show shapeInit.index + n ≤ BUFFER_SIZE
      simp [shapeInit]
      omega)
    exact ⟨by rw [h.1]; simp [shapeInit], h.2.2.2.2⟩
  · intro s h
    have hle : BUFFER_SIZE ≤ s.index := le_of_eq h.symm
    have h0 : s.index ≠ 0 := by rw [h]; norm_num [BUFFER_SIZE]
    have hB0 : ¬ BUFFER_SIZE = 0 := by norm_num [BUFFER_SIZE]
    refine ⟨?_, ?_, ?_, ?_⟩ <;>
      norm_num [ShapeRenderer.drawSolidTriangle, ShapeRenderer.drawBatch,
        hle, h0, h, hB0, ShapeRenderer.updateBuffer, writeBuf,
        transformMat4_identity, whiteColor]

/-- Repeated appends of one concrete image quad. -/
def iterImg : ℕ → ImgState → ImgState × List Ev
  | 0, s => (s, [])
  | n + 1, s =>
    seqEv (ImageRenderer.drawImage img0 0 0 .none none none s) (iterImg n)

theorem iterImg_le (n : ℕ) :
    ∀ s : ImgState, s.index + n ≤ BUFFER_SIZE → s.currentTarget = none →
    (s.currentImage = none ∨ s.currentImage = some img0) →
    (iterImg n s).1.index = s.index + n ∧ (iterImg n s).2 = []
  ∧ (iterImg n s).1.currentTarget = none
  ∧ ((iterImg n s).1.currentImage = none
      ∨ (iterImg n s).1.currentImage = some img0) := by
  induction n with
  | zero =>
    intro s h hct hci
    refine ⟨by simp [iterImg], by simp [iterImg], ?_, ?_⟩
    · simp [iterImg, hct]
    · simp [iterImg]
      exact hci
  | succ k ih =>
    intro s h hct hci
    have hf : ImageRenderer.needsFlushForImage s img0 = false :=
      ImageRenderer.needsFlushForImage_false s img0 (by omega) hct hci
    have hd := ImageRenderer.drawImage_noFlush img0 0 0 .none none none s hf
    simp only [iterImg, seqEv]
    obtain ⟨i2, v2, t2, c2⟩ := ih (ImageRenderer.drawImage img0 0 0 .none
      none none s).1 (by rw [hd.1]; omega) (hd.2.2.1.trans hct)
      (Or.inr hd.2.1)
    refine ⟨by rw [i2, hd.1]; omega, by simp [seqEv, hd.2.2.2.2, v2], t2, c2⟩

/-- Image-batch capacity boundary in the intact regime: `n ≤ capacity`
same-texture appends from the fresh state cause zero flushes and leave
the cursor at `n`; an append at full capacity with the texture marker
intact first flushes exactly once (all 4000 quads) and the new quad then
occupies slot zero. -/
theorem image_capacity_boundary :
    (∀ n, n ≤ BUFFER_SIZE →
      (iterImg n imgInit).1.index = n ∧ (iterImg n imgInit).2 = [])
  ∧ (∀ s : ImgState, s.index = BUFFER_SIZE → s.currentImage = some img0 →
      (ImageRenderer.drawImage img0 0 0 .none none none s).2
        = [Ev.flushImage BUFFER_SIZE]
      ∧ (ImageRenderer.drawImage img0 0 0 .none none none s).1.index = 1
      ∧ (ImageRenderer.drawImage img0 0 0 .none none none s).1.pendingTex
          = [TexSrc.img img0]) := by
  constructor
  · intro n hn
    have h := iterImg_le n imgInit (by norm_num [imgInit]; omega) rfl
      (Or.inl rfl)
    exact ⟨by rw [h.1]; simp [imgInit], h.2.1⟩
  · intro s h hci
    have ht : ImageRenderer.needsFlushForImage s img0 = true := by
      simp [ImageRenderer.needsFlushForImage, h]
    have h0 : s.index ≠ 0 := by rw [h]; norm_num [BUFFER_SIZE]
    have hd := ImageRenderer.drawImage_flushesFirst img0 0 0 .none none
      none s ht h0 (Or.inl (by rw [hci]; simp))
    exact ⟨by rw [hd.1, h], hd.2.1, hd.2.2.2⟩

/-- Texture-switch forcing a flush, in the intact regime: drawing image
`Y` while a different image `X` is bound over a non-empty batch flushes
exactly once — regardless of remaining capacity — before the new quad is
written at slot zero. -/
theorem texture_switch_forces_flush (s : ImgState) (X Y : Image)
    (px py : ℚ) (flip : Flip) (frame : Option Rect)
    (size : Option (ℚ × ℚ)) (hX : s.currentImage = some X) (hXY : X ≠ Y)
    (h0 : s.index ≠ 0) :
    (ImageRenderer.drawImage Y px py flip frame size s).2
      = [Ev.flushImage s.index]
  ∧ (ImageRenderer.drawImage Y px py flip frame size s).1.index = 1
  ∧ (ImageRenderer.drawImage Y px py flip frame size s).1.pendingTex
      = [TexSrc.img Y] := by
  have ht : ImageRenderer.needsFlushForImage s Y = true := by
    simp [ImageRenderer.needsFlushForImage, hX, hXY]
  have hd := ImageRenderer.drawImage_flushesFirst Y px py flip frame size
    s ht h0 (Or.inl (by rw [hX]; simp))
  exact ⟨hd.1, hd.2.1, hd.2.2.2⟩

/-- Witness for C10 at the initial state. -/
theorem C10_push_pop_roundtrip_witness :
    ∃ g1 g2, Graphics.pushTransform none gInit = .ok g1
      ∧ Graphics.popTransform g1 = .ok g2
      ∧ g2.transformStack = gInit.transformStack
      ∧ Graphics.transform g2 = Graphics.transform gInit
      ∧ g2.transformStack.length = gInit.transformStack.length :=
  C10_push_pop_roundtrip gInit (by simp [gInit])
    (by norm_num [gInit, MAX_TRANSFORM_STACK])

end Square2
